import Mathlib

/-!
Verification of the MIDI Fighter Twister encoder engine (`src/encoders.c`,
`src/encoders.h`) against its natural-language specification.

The development shallowly embeds the C code: machine integers become `Nat`
(unsigned) or `Int` (for the signed 16-bit raw encoder values), global arrays
become functions carried in an explicit state record, and loops become folds
over `List.range`.  Two's-complement artifacts of the C code (such as
`(uint8_t)(-1)` and `(channel - 1)` on an unsigned byte) are modelled
explicitly with `% 256` arithmetic where they matter.
-/

namespace Twister

/-! ## Constants (from `encoders.h` / `encoders.c`) -/

def PHYSICAL_ENCODERS : Nat := 16
def BANKED_ENCODERS : Nat := 64
def VIRTUAL_ENCODERS : Nat := 128
def NUM_BANKS : Nat := 4

/-- `midi_type` enum: `SEND_NOTE`. -/
def SEND_NOTE : Nat := 0
/-- `midi_type` enum: `SEND_CC`. -/
def SEND_CC : Nat := 1
/-- `midi_type` enum: `SEND_REL_ENC`. -/
def SEND_REL_ENC : Nat := 2
/-- `midi_type` enum: `SEND_NOTE_OFF`. -/
def SEND_NOTE_OFF : Nat := 3

/-- `MIDI_CC_HIGH_RESOLUTION_VELOCITY_PREFIX` (0x58). -/
def MIDI_CC_HIGH_RES_VELOCITY : Nat := 0x58

/-- `HIGH_RES_MAX_ENCODER_VALUE` (0x3FFF). -/
def HIGH_RES_MAX_ENCODER_VALUE : Int := 0x3FFF

/-- `HIGH_RES_ENCODER_THRESHOLD_VALUE` (1 << 7). -/
def HIGH_RES_ENCODER_THRESHOLD_VALUE : Int := 128

/-! ## Configuration record

`encoder_config_t`, restricted to the fields that `encoders.c` actually reads
and writes (the `phenotype` field of the header's struct is touched by neither
`get_encoder_config` nor `save_encoder_config` and is omitted).  Every field is
a `uint8_t` in C, embedded as `Nat`. -/

structure EncoderConfig where
  switch_action_type : Nat
  switch_midi_type : Nat
  switch_midi_channel : Nat
  switch_midi_number : Nat
  active_color : Nat
  inactive_color : Nat
  detent_color : Nat
  has_detent : Nat
  indicator_display_type : Nat
  movement : Nat
  encoder_shift_midi_channel : Nat
  encoder_midi_type : Nat
  encoder_midi_channel : Nat
  encoder_midi_number : Nat
  is_super_knob : Nat
deriving DecidableEq, Repr

/-! ## ConfigCodec: `get_encoder_config` (decode)

`get_encoder_config` reads 8 bytes starting at the record's address and
expands the packed sub-fields.  The EEPROM is modelled as a byte function
`read : Nat → Nat`; `addr` is the base address of the 8-byte record. -/

def get_encoder_config (read : Nat → Nat) (addr : Nat) : EncoderConfig where
  switch_action_type := read addr &&& 0x0F
  switch_midi_type := 0
  switch_midi_channel := (read addr >>> 4) &&& 0x0F
  switch_midi_number := read (addr + 1) &&& 0x7F
  active_color := read (addr + 2)
  inactive_color := read (addr + 3)
  detent_color := read (addr + 4) &&& 0x7F
  has_detent := (read (addr + 4) >>> 7) &&& 0x01
  indicator_display_type := read (addr + 5) &&& 0x03
  movement := (read (addr + 5) >>> 2) &&& 0x03
  encoder_shift_midi_channel := (read (addr + 5) >>> 4) &&& 0x0F
  encoder_midi_type := read (addr + 6) &&& 0x03
  encoder_midi_channel := (read (addr + 6) >>> 4) &&& 0x0F
  encoder_midi_number := read (addr + 7) &&& 0x7F
  is_super_knob := (read (addr + 7) >>> 7) &&& 0x01

/-! ## ConfigCodec: `save_encoder_config` (encode)

Each byte of the 8-byte record is produced from its previous page content by
the guarded read-modify-write sequence of `save_encoder_config`.  A field with
value `≥ 0x80` skips its guard and leaves its designated bits untouched.  The
C expression `(channel - 1) << 4` acts on an 8-bit unsigned channel promoted
to `int`; for `channel = 0` the intermediate `-1` shifted and masked with
`0xF0` yields `0xF0`, which coincides with `(((channel + 255) % 256) <<< 4)
&&& 0xF0` over `Nat`. -/

def save_byte0 (cfg : EncoderConfig) (b : Nat) : Nat :=
  let b := if cfg.switch_action_type < 0x80 then
      (b &&& 0xF0) ||| (cfg.switch_action_type &&& 0x0F) else b
  let b := if cfg.switch_midi_channel < 0x80 then
      (b &&& 0x0F) ||| (0xF0 &&& (((cfg.switch_midi_channel + 255) % 256) <<< 4)) else b
  b

def save_byte1 (cfg : EncoderConfig) (b : Nat) : Nat :=
  if cfg.switch_midi_number < 0x80 then cfg.switch_midi_number else b

def save_byte2 (cfg : EncoderConfig) (b : Nat) : Nat :=
  if cfg.active_color < 0x80 then cfg.active_color else b

def save_byte3 (cfg : EncoderConfig) (b : Nat) : Nat :=
  if cfg.inactive_color < 0x80 then cfg.inactive_color else b

def save_byte4 (cfg : EncoderConfig) (b : Nat) : Nat :=
  let b := if cfg.has_detent < 0x80 then
      (b &&& 0x7F) ||| (0x80 &&& (cfg.has_detent <<< 7)) else b
  let b := if cfg.detent_color < 0x80 then
      (b &&& 0x80) ||| (0x7F &&& cfg.detent_color) else b
  b

def save_byte5 (cfg : EncoderConfig) (b : Nat) : Nat :=
  let b := if cfg.indicator_display_type < 0x80 then
      (b &&& 0xFC) ||| (0x03 &&& cfg.indicator_display_type) else b
  let b := if cfg.movement < 0x80 then
      (b &&& 0xF3) ||| (0x0C &&& (cfg.movement <<< 2)) else b
  let b := if cfg.encoder_shift_midi_channel < 0x80 then
      (b &&& 0x0F) ||| (0xF0 &&& (cfg.encoder_shift_midi_channel <<< 4)) else b
  b

def save_byte6 (cfg : EncoderConfig) (b : Nat) : Nat :=
  let b := if cfg.encoder_midi_type < 0x80 then
      (b &&& 0xFC) ||| (0x03 &&& cfg.encoder_midi_type) else b
  let b := if cfg.encoder_midi_channel < 0x80 then
      (b &&& 0x0F) ||| (0xF0 &&& (((cfg.encoder_midi_channel + 255) % 256) <<< 4)) else b
  b

def save_byte7 (cfg : EncoderConfig) (b : Nat) : Nat :=
  let b := if cfg.encoder_midi_number < 0x80 then
      (b &&& 0x80) ||| cfg.encoder_midi_number else b
  let b := if cfg.is_super_knob < 0x80 then
      (b &&& 0x7F) ||| (0x80 &&& (cfg.is_super_knob <<< 7)) else b
  b

/-- The page transformation performed by `save_encoder_config`: the 8 bytes at
offset `off = 8 * (encoder % 4)` inside the 32-byte page buffer are
read-modify-written, every other byte of the page is left as read. -/
def save_page (cfg : EncoderConfig) (off : Nat) (page : Nat → Nat) : Nat → Nat :=
  fun a =>
    if a = off then save_byte0 cfg (page a)
    else if a = off + 1 then save_byte1 cfg (page a)
    else if a = off + 2 then save_byte2 cfg (page a)
    else if a = off + 3 then save_byte3 cfg (page a)
    else if a = off + 4 then save_byte4 cfg (page a)
    else if a = off + 5 then save_byte5 cfg (page a)
    else if a = off + 6 then save_byte6 cfg (page a)
    else if a = off + 7 then save_byte7 cfg (page a)
    else page a

/-- `get_virtual_encoder_id` from `encoders.c`. -/
def get_virtual_encoder_id (bank encoder_id : Nat) : Nat :=
  encoder_id + bank * 16

/-- `save_encoder_config`: records the new settings wholesale into the RAM
table (`encoder_settings[virtual_encoder_id] = *cfg_ptr`), and applies the
guarded bit-merge to the enclosing EEPROM page. Returns the updated RAM table
and the page buffer written back. -/
def save_encoder_config (bank encoder : Nat) (cfg : EncoderConfig)
    (settings : Nat → EncoderConfig) (page : Nat → Nat) :
    (Nat → EncoderConfig) × (Nat → Nat) :=
  (Function.update settings (get_virtual_encoder_id bank encoder) cfg,
   save_page cfg (8 * (encoder % 4)) page)

/-! ## ValueModel -/

/-- `scale_encoder_value`: 14-bit raw value to 7-bit MIDI value. A negative
input is mapped to 0. -/
def scale_encoder_value (value : Int) : Nat :=
  if value < 0 then 0 else value.toNat >>> 7

/-- `clamp_encoder_raw_value`: saturate a signed 16-bit value into the
14-bit range. -/
def clamp_encoder_raw_value (value : Int) : Int :=
  let value := if value < 0 then 0 else value
  let value := if value ≥ HIGH_RES_MAX_ENCODER_VALUE then HIGH_RES_MAX_ENCODER_VALUE else value
  value

/-- `encoder_is_in_detent`. -/
def encoder_is_in_detent (value : Int) : Bool :=
  if value > ((HIGH_RES_MAX_ENCODER_VALUE + 1) / 2 - HIGH_RES_ENCODER_THRESHOLD_VALUE)
      ∧ value < ((HIGH_RES_MAX_ENCODER_VALUE + 1) / 2 + HIGH_RES_ENCODER_THRESHOLD_VALUE)
  then true else false

/-- `encoder_is_in_deadzone`. -/
def encoder_is_in_deadzone (value : Int) : Bool :=
  if value ≥ HIGH_RES_MAX_ENCODER_VALUE ∨ value ≤ 0 then true else false

/-! ## Engine state

All file-scope mutable tables of `encoders.c`, plus the hardware-scan
collaborator input `encoder_is_active` (an external function from `input.h`,
modelled as an oracle carried in the state).  Two-dimensional
`[NUM_BANKS][16]` arrays become curried functions `Nat → Nat → Nat`. -/

structure EncState where
  /-- `raw_encoder_value[VIRTUAL_ENCODERS]` (`int16_t`). -/
  raw : Nat → Int
  /-- `indicator_value_buffer[NUM_BANKS][16]`. -/
  indicator : Nat → Nat → Nat
  /-- `switch_color_buffer[NUM_BANKS][16]`. -/
  switchColor : Nat → Nat → Nat
  /-- `switch_animation_buffer[NUM_BANKS][16]`. -/
  switchAnim : Nat → Nat → Nat
  /-- `encoder_animation_buffer[NUM_BANKS][16]`. -/
  encoderAnim : Nat → Nat → Nat
  /-- `enc_switch_midi_state[NUM_BANKS][16]`. -/
  encSwitchMidiState : Nat → Nat → Nat
  /-- `switch_color_overide[NUM_BANKS]` (16-bit bit-field per bank). -/
  switchColorOveride : Nat → Nat
  /-- `shift_mode_switch_state[2]`. -/
  shiftSwitchState : Nat → Nat
  /-- `shift_mode_midi_override[2]`. -/
  shiftMidiOverride : Nat → Nat
  /-- `encoder_bank` (current bank). -/
  bank : Nat
  /-- `encoder_settings[BANKED_ENCODERS]` RAM table. -/
  settings : Nat → EncoderConfig
  /-- `prevIndicatorValue[16]`. -/
  prevIndicator : Nat → Nat
  /-- `prevSwitchColorValue[16]`. -/
  prevSwitchColor : Nat → Nat
  /-- `prevEncoderAnimationValue[16]`. -/
  prevEncoderAnim : Nat → Nat
  /-- `prevSwAnimationValue[16]`. -/
  prevSwAnim : Nat → Nat
  /-- `update_encoder_display`'s static round-robin index `idx`. -/
  dispIdx : Nat
  /-- Hardware-scan collaborator `encoder_is_active(pos)` (external). -/
  encoderActive : Nat → Bool

/-- Pointwise update of one cell of a two-dimensional buffer. -/
def upd2 (f : Nat → Nat → Nat) (b e v : Nat) : Nat → Nat → Nat :=
  fun b' => if b' = b then Function.update (f b) e v else f b'

/-- `current_encoder_bank`. -/
def current_encoder_bank (st : EncState) : Nat := st.bank

/-- `encoder_midi_type_is_relative` (assumes the current bank). -/
def encoder_midi_type_is_relative (st : EncState) (encoder : Nat) : Bool :=
  (st.settings (encoder + st.bank * PHYSICAL_ENCODERS)).encoder_midi_type = SEND_REL_ENC

/-! ## BankManager: cross-bank value transfer -/

/-- `encoder_maps_match`. -/
def encoder_maps_match (settings : Nat → EncoderConfig)
    (this_id that_id : Nat) : Bool :=
  if (settings this_id).encoder_midi_number ≠ (settings that_id).encoder_midi_number then false
  else if (settings this_id).encoder_midi_type ≠ (settings that_id).encoder_midi_type then false
  else if (settings this_id).encoder_midi_type = SEND_REL_ENC then false
  else true

/-- State paired with a log of `(source, target)` copies performed, used to
express "a value was copied between two slots". -/
abbrev TransferSt := EncState × List (Nat × Nat)

/-- Body of the inner loop of `transfer_this_encoder_value_to_other_banks`:
one candidate target `(that_bank, that_encoder)`. -/
def transfer_copy (current_bank encoder_id that_bank that_encoder : Nat)
    (s : TransferSt) : TransferSt :=
  let this_id := current_bank * PHYSICAL_ENCODERS + encoder_id
  let that_id := that_bank * PHYSICAL_ENCODERS + that_encoder
  if encoder_maps_match s.1.settings this_id that_id then
    if (s.1.settings this_id).encoder_midi_channel
        = (s.1.settings that_id).encoder_midi_channel then
      ({ s.1 with
          raw := Function.update s.1.raw that_id (s.1.raw this_id),
          indicator := upd2 s.1.indicator that_bank that_encoder
            (s.1.indicator current_bank encoder_id) },
       s.2 ++ [(this_id, that_id)])
    else s
  else s

/-- Inner loop over `that_encoder` (`for that_encoder = 0 .. 15`). -/
def transfer_inner (current_bank encoder_id that_bank : Nat) (l : List Nat)
    (s : TransferSt) : TransferSt :=
  l.foldl (fun s that_encoder => transfer_copy current_bank encoder_id that_bank that_encoder s) s

/-- Outer loop over `that_bank` (`for that_bank = 0 .. NUM_BANKS-1`),
skipping the current bank. -/
def transfer_outer (current_bank encoder_id : Nat) (l : List Nat)
    (s : TransferSt) : TransferSt :=
  l.foldl (fun s that_bank =>
    if that_bank = current_bank then s
    else transfer_inner current_bank encoder_id that_bank (List.range PHYSICAL_ENCODERS) s) s

/-- `transfer_this_encoder_value_to_other_banks`. -/
def transfer_this_encoder_value_to_other_banks (current_bank encoder_id : Nat)
    (s : TransferSt) : TransferSt :=
  transfer_outer current_bank encoder_id (List.range NUM_BANKS) s

/-- `transfer_encoder_values_to_other_banks`. -/
def transfer_encoder_values_to_other_banks (current_bank : Nat)
    (s : TransferSt) : TransferSt :=
  (List.range PHYSICAL_ENCODERS).foldl
    (fun s this_encoder => transfer_this_encoder_value_to_other_banks current_bank this_encoder s) s

/-- Body of the per-position loop of `change_encoder_bank`: snapshot the old
bank's display value, force the previous-value caches to `(uint8_t)(-1)`
(= 255), and snapshot the new bank's display value. -/
def change_bank_step (new_bank : Nat) (s : EncState) (i : Nat) : EncState :=
  let old_vid := get_virtual_encoder_id s.bank i
  let new_vid := get_virtual_encoder_id new_bank i
  let s := { s with indicator := upd2 s.indicator s.bank i (scale_encoder_value (s.raw old_vid)) }
  let s := { s with
      prevIndicator := Function.update s.prevIndicator i 255,
      prevSwitchColor := Function.update s.prevSwitchColor i 255 }
  { s with indicator := upd2 s.indicator new_bank i (scale_encoder_value (s.raw new_vid)) }

/-- `change_encoder_bank`.  Returns the new state together with the log of
cross-bank copies performed by the transfer scan. -/
def change_encoder_bank (st : EncState) (new_bank : Nat) : EncState × List (Nat × Nat) :=
  let s := transfer_encoder_values_to_other_banks st.bank (st, [])
  let st1 := (List.range 16).foldl (change_bank_step new_bank) s.1
  ({ st1 with bank := new_bank }, s.2)

/-- `refresh_display`. -/
def refresh_display (st : EncState) : EncState × List (Nat × Nat) :=
  change_encoder_bank st (current_encoder_bank st)

/-! ## MidiCodec: inbound feedback dispatch -/

/-- Constants that `process_element_midi` takes from `config.h` / `midi.c`
(not part of `src/`): the system channel, the two animation channels and the
shift-note offset.  They are carried as explicit parameters. -/
structure MidiEnv where
  systemChannel : Nat
  encoderAnimationChannel : Nat
  switchAnimationChannel : Nat
  shiftOffset : Nat

/-- `process_indicator_update`: store an inbound 7-bit value as the
addressed virtual slot's raw value (`value << 7`) and indicator entry. -/
def process_indicator_update (st : EncState) (idx value : Nat) : EncState :=
  let bank := idx >>> 4
  let encoder := idx &&& 0x0F
  let virtual_encoder_id := idx
  if bank = current_encoder_bank st then
    if !(st.encoderActive encoder) || encoder_midi_type_is_relative st encoder then
      { st with
          raw := Function.update st.raw virtual_encoder_id ((value <<< 7 : Nat) : Int),
          indicator := upd2 st.indicator bank encoder value }
    else st
  else
    { st with
        raw := Function.update st.raw virtual_encoder_id ((value <<< 7 : Nat) : Int),
        indicator := upd2 st.indicator bank encoder value }

/-- `process_sw_rgb_update`.  (The `value == 0` branch reads
`encoder_settings[encoder]`, not `encoder_settings[idx]`, exactly as the C
does.) -/
def process_sw_rgb_update (st : EncState) (idx value : Nat) : EncState :=
  let bank := idx / 16
  let encoder := idx % 16
  if value = 0 then
    { st with
        switchColorOveride := Function.update st.switchColorOveride bank
          (st.switchColorOveride bank &&& (0xFFFF ^^^ (1 <<< encoder))),
        switchColor := upd2 st.switchColor bank encoder (st.settings encoder).inactive_color }
  else if 0 < value ∧ value < 126 then
    { st with
        switchColorOveride := Function.update st.switchColorOveride bank
          (st.switchColorOveride bank ||| (1 <<< encoder)),
        switchColor := upd2 st.switchColor bank encoder value }
  else
    { st with
        switchColorOveride := Function.update st.switchColorOveride bank
          (st.switchColorOveride bank ||| (1 <<< encoder)),
        switchColor := upd2 st.switchColor bank encoder (st.settings idx).active_color }

/-- `process_sw_toggle_update`. -/
def process_sw_toggle_update (st : EncState) (idx value : Nat) : EncState :=
  let bank := idx / 16
  let encoder := idx % 16
  { st with
      encSwitchMidiState := upd2 st.encSwitchMidiState bank encoder (if value ≠ 0 then 127 else 0) }

/-- `process_sw_animation_update`. -/
def process_sw_animation_update (st : EncState) (idx value : Nat) : EncState :=
  { st with switchAnim := upd2 st.switchAnim (idx / 16) (idx % 16) value }

/-- `process_encoder_animation_update`. -/
def process_encoder_animation_update (st : EncState) (idx value : Nat) : EncState :=
  { st with encoderAnim := upd2 st.encoderAnim (idx / 16) (idx % 16) value }

/-- One iteration of `process_element_midi`'s input-map scan (`for i = 0 ..
63`). -/
def process_element_midi_step (env : MidiEnv) (channel ty number value : Nat)
    (st : EncState) (i : Nat) : EncState :=
  let st :=
    if (st.settings i).encoder_midi_number = number then
      let output_type := (st.settings i).encoder_midi_type
      if (st.settings i).encoder_midi_channel = channel then
        if ty = SEND_CC then
          if output_type = SEND_CC ∨ output_type = SEND_REL_ENC then
            process_indicator_update st i value
          else st
        else
          if output_type = SEND_NOTE then process_indicator_update st i value else st
      else st
    else st
  if (st.settings i).switch_midi_number = number then
    if (st.settings i).switch_midi_channel = channel then
      if ty = SEND_CC then
        process_sw_toggle_update (process_sw_rgb_update st i value) i value
      else st
    else if channel = env.encoderAnimationChannel then
      process_encoder_animation_update st i value
    else if channel = env.switchAnimationChannel then
      process_sw_animation_update st i value
    else st
  else st

/-- `process_element_midi`: the inbound MIDI feedback dispatcher. -/
def process_element_midi (env : MidiEnv) (st : EncState)
    (channel ty number value : Nat) : EncState :=
  if channel = env.systemChannel then
    if ty = SEND_NOTE ∨ ty = SEND_NOTE_OFF then
      if env.shiftOffset ≤ number ∧ number ≤ env.shiftOffset + 32 then
        let number := number - env.shiftOffset
        let index := number % 16
        let bank := number / 16
        let st := { st with
            shiftMidiOverride := Function.update st.shiftMidiOverride bank
              (st.shiftMidiOverride bank ||| (1 <<< index)) }
        if value ≠ 0 then
          { st with
              shiftSwitchState := Function.update st.shiftSwitchState bank
                (st.shiftSwitchState bank ||| (1 <<< index)) }
        else
          { st with
              shiftSwitchState := Function.update st.shiftSwitchState bank
                (st.shiftSwitchState bank &&& (0xFFFF ^^^ (1 <<< index))) }
      else st
    else st
  else
    (List.range 64).foldl (process_element_midi_step env channel ty number value) st

/-! ## DisplayScheduler -/

/-- Calls made to the LED/display collaborator during one scheduler cycle. -/
inductive DisplayEvent where
  | setIndicator (pos value has_detent display_type detent_color : Nat)
  | setRgb (pos color : Nat)
  | runAnimation (pos bank animation base_color : Nat)
deriving DecidableEq, Repr

/-- `animation_is_switch_rgb`: switch-class animation ids (1-48, 127). -/
def animation_is_switch_rgb (animation_value : Nat) : Bool :=
  if animation_value = 0 then false
  else if animation_value < 49 ∨ animation_value = 127 then true
  else false

/-- `animation_is_encoder_indicator`: indicator-class animation ids (49-96;
the C also classifies 127 here). -/
def animation_is_encoder_indicator (animation_value : Nat) : Bool :=
  if animation_value < 49 then false
  else if animation_value < 97 ∨ animation_value = 127 then true
  else false

/-- `animation_buffer_conflict_exists`. -/
def animation_buffer_conflict_exists (st : EncState) (encoder_bank encoder : Nat) : Bool :=
  let this_animation := st.switchAnim encoder_bank encoder
  let that_animation := st.encoderAnim encoder_bank encoder
  if this_animation = 0 ∨ that_animation = 0 then false
  else if this_animation > 127 ∨ that_animation > 127 then false
  else if this_animation < 49 ∨ this_animation = 127 then
    if that_animation < 49 ∨ that_animation = 127 then true else false
  else if this_animation < 97 then
    if that_animation > 48 ∧ that_animation < 97 then true else false
  else false

/-- Indicator-diff block of `update_encoder_display`. -/
def display_block_indicator (st : EncState) : EncState × List DisplayEvent :=
  let idx := st.dispIdx
  let banked_encoder_idx := idx + st.bank * PHYSICAL_ENCODERS
  let currentValue := st.indicator st.bank idx
  if currentValue ≠ st.prevIndicator idx then
    ({ st with prevIndicator := Function.update st.prevIndicator idx currentValue },
     [DisplayEvent.setIndicator idx currentValue
        (st.settings banked_encoder_idx).has_detent
        (st.settings banked_encoder_idx).indicator_display_type
        (st.settings banked_encoder_idx).detent_color])
  else (st, [])

/-- RGB-diff block of `update_encoder_display`. -/
def display_block_rgb (st : EncState) : EncState × List DisplayEvent :=
  let idx := st.dispIdx
  let currentValue := st.switchColor st.bank idx
  if currentValue ≠ st.prevSwitchColor idx then
    ({ st with prevSwitchColor := Function.update st.prevSwitchColor idx currentValue },
     [DisplayEvent.setRgb idx currentValue])
  else (st, [])

/-- Encoder-animation-buffer block of `update_encoder_display` (runs
unconditionally; "takes priority" over the switch buffer on conflict). -/
def display_block_encoder_anim (st : EncState) : EncState × List DisplayEvent :=
  let idx := st.dispIdx
  let banked_encoder_idx := idx + st.bank * PHYSICAL_ENCODERS
  let currentValue := st.encoderAnim st.bank idx
  if currentValue ≠ 0 then
    ({ st with prevEncoderAnim := Function.update st.prevEncoderAnim idx currentValue },
     [DisplayEvent.runAnimation idx st.bank currentValue (st.switchColor st.bank idx)])
  else if st.prevEncoderAnim idx ≠ 0 then
    let ev :=
      if animation_is_switch_rgb (st.prevEncoderAnim idx) then
        [DisplayEvent.setRgb idx (st.switchColor st.bank idx)]
      else if animation_is_encoder_indicator (st.prevEncoderAnim idx) then
        [DisplayEvent.setIndicator idx (st.indicator st.bank idx)
           (st.settings banked_encoder_idx).has_detent
           (st.settings banked_encoder_idx).indicator_display_type
           (st.settings banked_encoder_idx).detent_color]
      else []
    ({ st with prevEncoderAnim := Function.update st.prevEncoderAnim idx 0 }, ev)
  else (st, [])

/-- Switch-animation-buffer block of `update_encoder_display`, gated by the
animation-conflict check. -/
def display_block_switch_anim (st : EncState) : EncState × List DisplayEvent :=
  let idx := st.dispIdx
  let banked_encoder_idx := idx + st.bank * PHYSICAL_ENCODERS
  if !animation_buffer_conflict_exists st st.bank idx then
    let currentValue := st.switchAnim st.bank idx
    if currentValue ≠ 0 then
      ({ st with prevSwAnim := Function.update st.prevSwAnim idx currentValue },
       [DisplayEvent.runAnimation idx st.bank currentValue (st.switchColor st.bank idx)])
    else if st.prevSwAnim idx ≠ 0 then
      let ev :=
        if animation_is_switch_rgb (st.prevSwAnim idx) then
          [DisplayEvent.setRgb idx (st.switchColor st.bank idx)]
        else if animation_is_encoder_indicator (st.prevSwAnim idx) then
          [DisplayEvent.setIndicator idx (st.indicator st.bank idx)
             (st.settings banked_encoder_idx).has_detent
             (st.settings banked_encoder_idx).indicator_display_type
             (st.settings banked_encoder_idx).detent_color]
        else []
      ({ st with prevSwAnim := Function.update st.prevSwAnim idx 0 }, ev)
    else (st, [])
  else (st, [])

/-- `update_encoder_display`: service one physical position (the round-robin
`idx`), diffing against previous state; returns the display-driver calls
issued in order. The four blocks touch pairwise disjoint parts of the state,
mirroring the sequential statements of the C function. -/
def update_encoder_display (st : EncState) : EncState × List DisplayEvent :=
  let idx := st.dispIdx
  let r1 := display_block_indicator st
  let r2 := display_block_rgb r1.1
  let r3 := display_block_encoder_anim r2.1
  let r4 := display_block_switch_anim r3.1
  let newIdx := if idx + 1 > 15 then 0 else idx + 1
  ({ r4.1 with dispIdx := newIdx }, r1.2 ++ r2.2 ++ r3.2 ++ r4.2)

/-! ## Initialization (`encoders_init`, raw-value part) -/

/-- The raw-value initialization loop of `encoders_init`: for every banked
encoder the raw value (and its shifted counterpart) is set to 6300 if the
encoder has a detent, else 0. -/
def encoders_init_raw (settings : Nat → EncoderConfig) (raw : Nat → Int) : Nat → Int :=
  (List.range BANKED_ENCODERS).foldl
    (fun r i =>
      if (settings i).has_detent ≠ 0 then
        Function.update (Function.update r i 6300) (i + BANKED_ENCODERS) 6300
      else
        Function.update (Function.update r i 0) (i + BANKED_ENCODERS) 0)
    raw

/-! ## Concrete demonstration data (used by witnesses and counterexamples) -/

/-- A configuration record in which every field is the `0x80` skip
sentinel. -/
def cfgSentinel : EncoderConfig :=
  ⟨0x80, 0x80, 0x80, 0x80, 0x80, 0x80, 0x80, 0x80, 0x80, 0x80, 0x80, 0x80, 0x80, 0x80, 0x80⟩

/-- A demonstration page of distinct byte values. -/
def pageDemo : Nat → Nat := fun a => (a * 7 + 3) % 256

/-- A demonstration settings table. -/
def settingsDemo : Nat → EncoderConfig := fun _ => cfgSentinel

/-- Every field of the record is at or above the `0x80` skip sentinel. -/
def AllSentinel (cfg : EncoderConfig) : Prop :=
  0x80 ≤ cfg.switch_action_type ∧ 0x80 ≤ cfg.switch_midi_type
    ∧ 0x80 ≤ cfg.switch_midi_channel ∧ 0x80 ≤ cfg.switch_midi_number
    ∧ 0x80 ≤ cfg.active_color ∧ 0x80 ≤ cfg.inactive_color
    ∧ 0x80 ≤ cfg.detent_color ∧ 0x80 ≤ cfg.has_detent
    ∧ 0x80 ≤ cfg.indicator_display_type ∧ 0x80 ≤ cfg.movement
    ∧ 0x80 ≤ cfg.encoder_shift_midi_channel ∧ 0x80 ≤ cfg.encoder_midi_type
    ∧ 0x80 ≤ cfg.encoder_midi_channel ∧ 0x80 ≤ cfg.encoder_midi_number
    ∧ 0x80 ≤ cfg.is_super_knob

instance (cfg : EncoderConfig) : Decidable (AllSentinel cfg) := by
  unfold AllSentinel
  exact inferInstance

/-- A full (non-partial) configuration record: every field 1. -/
def cfgOnes : EncoderConfig := ⟨1, 1, 1, 1, 1, 1, 1, 1, 1, 1, 1, 1, 1, 1, 1⟩

/-- An all-zero page. -/
def pageZero : Nat → Nat := fun _ => 0

/-- A RAM settings table in which every entry is `cfgOnes`. -/
def settingsOnes : Nat → EncoderConfig := fun _ => cfgOnes

/-- A base state: all buffers zero, bank 0, every slot configured as
`cfgOnes`, no encoder currently moving. -/
def zeroState : EncState where
  raw := fun _ => 0
  indicator := fun _ _ => 0
  switchColor := fun _ _ => 0
  switchAnim := fun _ _ => 0
  encoderAnim := fun _ _ => 0
  encSwitchMidiState := fun _ _ => 0
  switchColorOveride := fun _ => 0
  shiftSwitchState := fun _ => 0
  shiftMidiOverride := fun _ => 0
  bank := 0
  settings := fun _ => cfgOnes
  prevIndicator := fun _ => 0
  prevSwitchColor := fun _ => 0
  prevEncoderAnim := fun _ => 0
  prevSwAnim := fun _ => 0
  dispIdx := 0
  encoderActive := fun _ => false

/-- Configuration of the control addressed in the high-resolution feedback
scenario: a CC rotary on channel 3 with MIDI number 10. -/
def cfgC2 : EncoderConfig where
  switch_action_type := 0
  switch_midi_type := 0
  switch_midi_channel := 9
  switch_midi_number := 20
  active_color := 0
  inactive_color := 0
  detent_color := 0
  has_detent := 0
  indicator_display_type := 0
  movement := 0
  encoder_shift_midi_channel := 0
  encoder_midi_type := SEND_CC
  encoder_midi_channel := 3
  encoder_midi_number := 10
  is_super_knob := 0

/-- A filler configuration that matches no inbound number (relative kind,
number 0). -/
def cfgFiller : EncoderConfig :=
  { cfgC2 with encoder_midi_number := 0, encoder_midi_type := SEND_REL_ENC }

/-- Settings table for the high-resolution feedback scenario: slot 0 is the
addressed control, every other slot can match nothing. -/
def c2Settings : Nat → EncoderConfig := fun i => if i = 0 then cfgC2 else cfgFiller

/-- Channel roles for the feedback dispatcher: system channel 15, animation
channels 4 and 5, shift offset 96 (values only need to avoid the scenario's
channel 3). -/
def c2Env : MidiEnv := ⟨15, 4, 5, 96⟩

/-- Initial state of the high-resolution feedback scenario. -/
def c2State : EncState := { zeroState with settings := c2Settings }

/-- State for the animation-conflict scenario: switch-class id 5 in the
switch animation buffer and indicator-class id 60 in the encoder animation
buffer, both at bank 0 position 0; the previous-animation caches hold prior
values 1 and 2. -/
def c3State : EncState :=
  { zeroState with
      switchAnim := fun b e => if b = 0 ∧ e = 0 then 5 else 0,
      encoderAnim := fun b e => if b = 0 ∧ e = 0 then 60 else 0,
      prevEncoderAnim := fun _ => 1,
      prevSwAnim := fun _ => 2 }

/-- State for the bank-change display-invalidation scenario: distinctive
prior values in all four previous-value caches; all slots relative-mapped so
the transfer scan copies nothing. -/
def c7State : EncState :=
  { zeroState with
      settings := fun _ => cfgFiller,
      prevIndicator := fun _ => 3,
      prevSwitchColor := fun _ => 4,
      prevEncoderAnim := fun _ => 7,
      prevSwAnim := fun _ => 9 }

/-- The condition under which the transfer scan copies a value from slot
`src` to slot `tgt`: the mappings match and the encoder MIDI channels are
equal. -/
def CopyCond (settings : Nat → EncoderConfig) (src tgt : Nat) : Prop :=
  encoder_maps_match settings src tgt = true
    ∧ (settings src).encoder_midi_channel = (settings tgt).encoder_midi_channel

instance (settings : Nat → EncoderConfig) (src tgt : Nat) :
    Decidable (CopyCond settings src tgt) := by
  unfold CopyCond
  exact inferInstance

/-- Source configuration of the bank-transfer scenario: an absolute CC
mapping (number 5, channel 2) shared by slots 0 and 1 of bank 0 and by
slot 16 (bank 1, position 0). -/
def cfgC6Src : EncoderConfig :=
  { cfgC2 with encoder_midi_number := 5, encoder_midi_channel := 2 }

/-- Settings table of the bank-transfer scenario: two distinct sources in
the current bank (slots 0 and 1) match the same target slot 16. -/
def c6Settings : Nat → EncoderConfig := fun i =>
  if i = 0 ∨ i = 1 ∨ i = 16 then cfgC6Src else cfgFiller

/-- Initial state of the bank-transfer scenario: the two matching sources
hold different raw values. -/
def c6State : EncState :=
  { zeroState with
      settings := c6Settings,
      raw := (fun i => if i = 0 then 100 else if i = 1 then 200 else 0) }

/-- The raw-value range invariant of C8: every virtual slot's raw value
lies in `[0, 16383]`. -/
def RawBounded (f : Nat → Int) : Prop :=
  ∀ x, x < VIRTUAL_ENCODERS → 0 ≤ f x ∧ f x ≤ 16383

instance (f : Nat → Int) : Decidable (RawBounded f) := by
  unfold RawBounded
  exact inferInstance

/-- `RawBounded` for the raw table of a whole state. -/
def RawInv (st : EncState) : Prop := RawBounded st.raw

instance (st : EncState) : Decidable (RawInv st) := by
  unfold RawInv
  exact inferInstance

/-! ## Nat bitwise helper lemmas -/

theorem and_shr (x y n : Nat) : (x &&& y) >>> n = (x >>> n) &&& (y >>> n) :=
  Nat.eq_of_testBit_eq fun i => by simp [Nat.testBit_shiftRight, Nat.testBit_and]

theorem or_shr (x y n : Nat) : (x ||| y) >>> n = (x >>> n) ||| (y >>> n) :=
  Nat.eq_of_testBit_eq fun i => by simp [Nat.testBit_shiftRight, Nat.testBit_or]

theorem or_and_right (x y m : Nat) : (x ||| y) &&& m = (x &&& m) ||| (y &&& m) :=
  Nat.eq_of_testBit_eq fun i => by
    simp only [Nat.testBit_and, Nat.testBit_or]
    cases x.testBit i <;> cases y.testBit i <;> cases m.testBit i <;> rfl

theorem and_or_left (m x y : Nat) : m &&& (x ||| y) = (m &&& x) ||| (m &&& y) :=
  Nat.eq_of_testBit_eq fun i => by
    simp only [Nat.testBit_and, Nat.testBit_or]
    cases x.testBit i <;> cases y.testBit i <;> cases m.testBit i <;> rfl

theorem and_mask15 (x : Nat) : x &&& 15 = x % 16 := by
  have h := Nat.and_pow_two_sub_one_eq_mod x 4
  norm_num at h
  exact h

theorem and_mask127 (x : Nat) : x &&& 127 = x % 128 := by
  have h := Nat.and_pow_two_sub_one_eq_mod x 7
  norm_num at h
  exact h

theorem and_mask3 (x : Nat) : x &&& 3 = x % 4 := by
  have h := Nat.and_pow_two_sub_one_eq_mod x 2
  norm_num at h
  exact h

theorem and_mask1 (x : Nat) : x &&& 1 = x % 2 := Nat.and_one_is_mod x

theorem mask15_and (x : Nat) : 15 &&& x = x % 16 := by rw [Nat.and_comm]; exact and_mask15 x

theorem mask3_and (x : Nat) : 3 &&& x = x % 4 := by rw [Nat.and_comm]; exact and_mask3 x

theorem mask1_and (x : Nat) : 1 &&& x = x % 2 := by rw [Nat.and_comm]; exact and_mask1 x

theorem mask127_and (x : Nat) : 127 &&& x = x % 128 := by rw [Nat.and_comm]; exact and_mask127 x

theorem shl4_and15 (x : Nat) : (x <<< 4) &&& 15 = 0 := by
  rw [Nat.shiftLeft_eq, and_mask15]; omega

theorem shl2_and3 (x : Nat) : (x <<< 2) &&& 3 = 0 := by
  rw [Nat.shiftLeft_eq, and_mask3]; omega

theorem shl4_and3 (x : Nat) : (x <<< 4) &&& 3 = 0 := by
  rw [Nat.shiftLeft_eq, and_mask3]; omega

theorem shl7_and127 (x : Nat) : (x <<< 7) &&& 127 = 0 := by
  rw [Nat.shiftLeft_eq, and_mask127]; omega

theorem shl7_and1 (x : Nat) : (x <<< 7) &&& 1 = 0 := by
  rw [Nat.shiftLeft_eq, and_mask1]; omega

theorem shl4_shr2 (x : Nat) : (x <<< 4) >>> 2 = x <<< 2 := by
  simp [Nat.shiftLeft_eq, Nat.shiftRight_eq_div_pow]; omega

theorem m240_15 : (240 : Nat) &&& 15 = 0 := by decide

theorem m15_15 : (15 : Nat) &&& 15 = 15 := by decide

theorem m15_3 : (15 : Nat) &&& 3 = 3 := by decide

theorem m3_3 : (3 : Nat) &&& 3 = 3 := by decide

theorem m1_1 : (1 : Nat) &&& 1 = 1 := by decide

theorem m252_3 : (252 : Nat) &&& 3 = 0 := by decide

theorem m243_3 : (243 : Nat) &&& 3 = 3 := by decide

theorem m12_3 : (12 : Nat) &&& 3 = 0 := by decide

theorem m60_3 : (60 : Nat) &&& 3 = 0 := by decide

theorem m63_3 : (63 : Nat) &&& 3 = 3 := by decide

theorem m127_127 : (127 : Nat) &&& 127 = 127 := by decide

theorem m128_127 : (128 : Nat) &&& 127 = 0 := by decide

/-! ## Locating the 8 record bytes inside the written page -/

theorem save_page_at0 (cfg : EncoderConfig) (off : Nat) (page : Nat → Nat) :
    save_page cfg off page off = save_byte0 cfg (page off) := by
  unfold save_page
  rw [if_pos rfl]

theorem save_page_at1 (cfg : EncoderConfig) (off : Nat) (page : Nat → Nat) :
    save_page cfg off page (off + 1) = save_byte1 cfg (page (off + 1)) := by
  unfold save_page
  rw [if_neg (by omega), if_pos rfl]

theorem save_page_at2 (cfg : EncoderConfig) (off : Nat) (page : Nat → Nat) :
    save_page cfg off page (off + 2) = save_byte2 cfg (page (off + 2)) := by
  unfold save_page
  rw [if_neg (by omega), if_neg (by omega), if_pos rfl]

theorem save_page_at3 (cfg : EncoderConfig) (off : Nat) (page : Nat → Nat) :
    save_page cfg off page (off + 3) = save_byte3 cfg (page (off + 3)) := by
  unfold save_page
  rw [if_neg (by omega), if_neg (by omega), if_neg (by omega), if_pos rfl]

theorem save_page_at4 (cfg : EncoderConfig) (off : Nat) (page : Nat → Nat) :
    save_page cfg off page (off + 4) = save_byte4 cfg (page (off + 4)) := by
  unfold save_page
  rw [if_neg (by omega), if_neg (by omega), if_neg (by omega), if_neg (by omega), if_pos rfl]

theorem save_page_at5 (cfg : EncoderConfig) (off : Nat) (page : Nat → Nat) :
    save_page cfg off page (off + 5) = save_byte5 cfg (page (off + 5)) := by
  unfold save_page
  rw [if_neg (by omega), if_neg (by omega), if_neg (by omega), if_neg (by omega),
    if_neg (by omega), if_pos rfl]

theorem save_page_at6 (cfg : EncoderConfig) (off : Nat) (page : Nat → Nat) :
    save_page cfg off page (off + 6) = save_byte6 cfg (page (off + 6)) := by
  unfold save_page
  rw [if_neg (by omega), if_neg (by omega), if_neg (by omega), if_neg (by omega),
    if_neg (by omega), if_neg (by omega), if_pos rfl]

theorem save_page_at7 (cfg : EncoderConfig) (off : Nat) (page : Nat → Nat) :
    save_page cfg off page (off + 7) = save_byte7 cfg (page (off + 7)) := by
  unfold save_page
  rw [if_neg (by omega), if_neg (by omega), if_neg (by omega), if_neg (by omega),
    if_neg (by omega), if_neg (by omega), if_neg (by omega), if_pos rfl]

/-! ## C9: detent classification -/

/-- C9 (counterexample): the claim "`is_in_detent(raw)` returns true iff
`|raw − 8192| ≤ 128`" fails at `raw = 8320`: the distance is exactly 128 but
`encoder_is_in_detent` returns `false` (the C comparisons are strict). -/
theorem c9_detent_claim_false_at_8320 :
    encoder_is_in_detent 8320 = false
      ∧ ((8320 : Int) - 8192).natAbs ≤ 128
      ∧ (0 : Int) ≤ 8320 ∧ (8320 : Int) ≤ 16383 := by
  refine ⟨by decide, by decide, by decide, by decide⟩

/-- C9 (amended): for every raw value, `encoder_is_in_detent raw` is true iff
`|raw − 8192| < 128` (strictly within 128 of the midpoint, i.e. distance at
most 127). -/
theorem c9_detent_iff_strict (value : Int) :
    encoder_is_in_detent value = true ↔ (value - 8192).natAbs < 128 := by
  unfold encoder_is_in_detent HIGH_RES_MAX_ENCODER_VALUE HIGH_RES_ENCODER_THRESHOLD_VALUE
  split <;> simp <;> omega

/-! ## C10: totality of `scale_encoder_value` -/

/-- C10: `scale_encoder_value` is total on signed 16-bit inputs: negative
inputs yield 0 (no wrap-around), and inputs in [0, 16383] yield the input
shifted right by 7 (i.e. divided by 128), which lies in [0, 127]. -/
theorem c10_scale_encoder_value_total (value : Int)
    (hlo : -32768 ≤ value) (hhi : value ≤ 32767) :
    (value < 0 → scale_encoder_value value = 0)
      ∧ (0 ≤ value → value ≤ 16383 →
          scale_encoder_value value = value.toNat / 128
            ∧ scale_encoder_value value ≤ 127) := by
  unfold scale_encoder_value
  constructor
  · intro hneg
    rw [if_pos hneg]
  · intro hpos hle
    rw [if_neg (by omega)]
    have htn : value.toNat ≤ 16383 := by omega
    constructor
    · rw [Nat.shiftRight_eq_div_pow]
    · rw [Nat.shiftRight_eq_div_pow]
      omega

/-- C10 (witness): instantiation at `value = 300`. -/
theorem c10_scale_encoder_value_total_witness :
    ((300 : Int) < 0 → scale_encoder_value 300 = 0)
      ∧ ((0 : Int) ≤ 300 → (300 : Int) ≤ 16383 →
          scale_encoder_value 300 = Int.toNat 300 / 128
            ∧ scale_encoder_value 300 ≤ 127) :=
  c10_scale_encoder_value_total 300 (by decide) (by decide)

/-! ## C5: all-sentinel partial update is a page-level no-op -/

theorem save_byte0_sentinel (cfg : EncoderConfig) (h : AllSentinel cfg) (b : Nat) :
    save_byte0 cfg b = b := by
  obtain ⟨h1, h2, h3, h4, h5, h6, h7, h8, h9, h10, h11, h12, h13, h14, h15⟩ := h
  simp only [save_byte0]
  rw [if_neg (show ¬ cfg.switch_midi_channel < 0x80 by omega),
     if_neg (show ¬ cfg.switch_action_type < 0x80 by omega)]

theorem save_byte1_sentinel (cfg : EncoderConfig) (h : AllSentinel cfg) (b : Nat) :
    save_byte1 cfg b = b := by
  obtain ⟨h1, h2, h3, h4, h5, h6, h7, h8, h9, h10, h11, h12, h13, h14, h15⟩ := h
  simp only [save_byte1]
  rw [if_neg (show ¬ cfg.switch_midi_number < 0x80 by omega)]

theorem save_byte2_sentinel (cfg : EncoderConfig) (h : AllSentinel cfg) (b : Nat) :
    save_byte2 cfg b = b := by
  obtain ⟨h1, h2, h3, h4, h5, h6, h7, h8, h9, h10, h11, h12, h13, h14, h15⟩ := h
  simp only [save_byte2]
  rw [if_neg (show ¬ cfg.active_color < 0x80 by omega)]

theorem save_byte3_sentinel (cfg : EncoderConfig) (h : AllSentinel cfg) (b : Nat) :
    save_byte3 cfg b = b := by
  obtain ⟨h1, h2, h3, h4, h5, h6, h7, h8, h9, h10, h11, h12, h13, h14, h15⟩ := h
  simp only [save_byte3]
  rw [if_neg (show ¬ cfg.inactive_color < 0x80 by omega)]

theorem save_byte4_sentinel (cfg : EncoderConfig) (h : AllSentinel cfg) (b : Nat) :
    save_byte4 cfg b = b := by
  obtain ⟨h1, h2, h3, h4, h5, h6, h7, h8, h9, h10, h11, h12, h13, h14, h15⟩ := h
  simp only [save_byte4]
  rw [if_neg (show ¬ cfg.detent_color < 0x80 by omega),
     if_neg (show ¬ cfg.has_detent < 0x80 by omega)]

theorem save_byte5_sentinel (cfg : EncoderConfig) (h : AllSentinel cfg) (b : Nat) :
    save_byte5 cfg b = b := by
  obtain ⟨h1, h2, h3, h4, h5, h6, h7, h8, h9, h10, h11, h12, h13, h14, h15⟩ := h
  simp only [save_byte5]
  rw [if_neg (show ¬ cfg.encoder_shift_midi_channel < 0x80 by omega),
     if_neg (show ¬ cfg.movement < 0x80 by omega),
     if_neg (show ¬ cfg.indicator_display_type < 0x80 by omega)]

theorem save_byte6_sentinel (cfg : EncoderConfig) (h : AllSentinel cfg) (b : Nat) :
    save_byte6 cfg b = b := by
  obtain ⟨h1, h2, h3, h4, h5, h6, h7, h8, h9, h10, h11, h12, h13, h14, h15⟩ := h
  simp only [save_byte6]
  rw [if_neg (show ¬ cfg.encoder_midi_channel < 0x80 by omega),
     if_neg (show ¬ cfg.encoder_midi_type < 0x80 by omega)]

theorem save_byte7_sentinel (cfg : EncoderConfig) (h : AllSentinel cfg) (b : Nat) :
    save_byte7 cfg b = b := by
  obtain ⟨h1, h2, h3, h4, h5, h6, h7, h8, h9, h10, h11, h12, h13, h14, h15⟩ := h
  simp only [save_byte7]
  rw [if_neg (show ¬ cfg.is_super_knob < 0x80 by omega),
     if_neg (show ¬ cfg.encoder_midi_number < 0x80 by omega)]

/-- C5: saving a record in which every field is the `0x80` sentinel writes
back exactly the page that was read: every byte of the enclosing page —
the addressed control's 8 bytes and its three siblings' — is unchanged. -/
theorem c5_all_sentinel_page_noop (bank encoder : Nat) (cfg : EncoderConfig)
    (settings : Nat → EncoderConfig) (page : Nat → Nat)
    (h : AllSentinel cfg) (a : Nat) :
    (save_encoder_config bank encoder cfg settings page).2 a = page a := by
  show save_page cfg (8 * (encoder % 4)) page a = page a
  unfold save_page
  split
  · exact save_byte0_sentinel cfg h _
  split
  · exact save_byte1_sentinel cfg h _
  split
  · exact save_byte2_sentinel cfg h _
  split
  · exact save_byte3_sentinel cfg h _
  split
  · exact save_byte4_sentinel cfg h _
  split
  · exact save_byte5_sentinel cfg h _
  split
  · exact save_byte6_sentinel cfg h _
  split
  · exact save_byte7_sentinel cfg h _
  rfl

/-- C5 (witness): instantiation at a concrete all-sentinel record, page and
byte address. -/
theorem c5_all_sentinel_page_noop_witness :
    AllSentinel cfgSentinel
      ∧ (save_encoder_config 0 1 cfgSentinel settingsDemo pageDemo).2 13 = pageDemo 13 :=
  ⟨by decide, c5_all_sentinel_page_noop 0 1 cfgSentinel settingsDemo pageDemo (by decide) 13⟩

/-! ## C1: configuration round-trip -/

/-- C1 (counterexample): encoding a full record (every field below 0x80) and
decoding it does not reproduce every field: with every field 1, the decoded
`switch_midi_channel` is 0 (the encoder stores channels zero-based but the
decoder does not add the 1 back). -/
theorem c1_roundtrip_claim_false :
    (get_encoder_config (save_page cfgOnes 0 pageZero) 0).switch_midi_channel = 0
      ∧ cfgOnes.switch_midi_channel = 1
      ∧ get_encoder_config (save_page cfgOnes 0 pageZero) 0 ≠ cfgOnes := by
  refine ⟨by decide, by decide, by decide⟩

/-- C1 (amended): for a full (non-partial) record whose fields fit their
packed widths, encode-then-decode reproduces every field exactly, except that
the two one-based channel fields come back decremented by one modulo 16
(`(c + 15) % 16`) and `switch_midi_type` decodes to the constant 0. -/
theorem c1_roundtrip_corrected (cfg : EncoderConfig) (page : Nat → Nat) (off : Nat)
    (h1 : cfg.switch_action_type < 16)
    (h2 : cfg.switch_midi_channel < 0x80)
    (h3 : cfg.switch_midi_number < 0x80)
    (h4 : cfg.active_color < 0x80)
    (h5 : cfg.inactive_color < 0x80)
    (h6 : cfg.detent_color < 0x80)
    (h7 : cfg.has_detent < 2)
    (h8 : cfg.indicator_display_type < 4)
    (h9 : cfg.movement < 4)
    (h10 : cfg.encoder_shift_midi_channel < 16)
    (h11 : cfg.encoder_midi_type < 4)
    (h12 : cfg.encoder_midi_channel < 0x80)
    (h13 : cfg.encoder_midi_number < 0x80)
    (h14 : cfg.is_super_knob < 2) :
    get_encoder_config (save_page cfg off page) off
      = { cfg with
          switch_midi_type := 0,
          switch_midi_channel := (cfg.switch_midi_channel + 15) % 16,
          encoder_midi_channel := (cfg.encoder_midi_channel + 15) % 16 } := by
  obtain ⟨f1, f2, f3, f4, f5, f6, f7, f8, f9, f10, f11, f12, f13, f14, f15⟩ := cfg
  simp only at h1 h2 h3 h4 h5 h6 h7 h8 h9 h10 h11 h12 h13 h14 ⊢
  have g1 : f1 < 128 := by omega
  have g3 : f3 < 128 := by omega
  have g7 : f7 < 128 := by omega
  have g8 : f8 < 128 := by omega
  have g9 : f9 < 128 := by omega
  have g10 : f10 < 128 := by omega
  have g11 : f11 < 128 := by omega
  have g12 : f12 < 128 := by omega
  have g15 : f15 < 128 := by omega
  unfold get_encoder_config
  rw [save_page_at0, save_page_at1, save_page_at2, save_page_at3, save_page_at4,
    save_page_at5, save_page_at6, save_page_at7]
  simp only [save_byte0, save_byte1, save_byte2, save_byte3, save_byte4, save_byte5,
    save_byte6, save_byte7, g1, g3, g7, g8, g9, g10, g11, g12, g15,
    h2, h3, h4, h5, h6, h12, h13, if_true]
  rw [EncoderConfig.mk.injEq]
  refine ⟨?_, rfl, ?_, ?_, rfl, rfl, ?_, ?_, ?_, ?_, ?_, ?_, ?_, ?_, ?_⟩ <;>
    · try simp only [or_and_right, and_shr, or_shr, Nat.and_assoc, Nat.shiftLeft_shiftRight,
        shl4_and15, shl2_and3, shl4_and3, shl7_and127, shl7_and1, shl4_shr2,
        Nat.and_zero, Nat.zero_and, Nat.or_zero, Nat.zero_or,
        m240_15, m15_15, m15_3, m3_3, m1_1, m252_3, m243_3, m12_3, m60_3, m127_127, m128_127,
        Nat.reduceShiftRight]
      try simp only [and_mask15, mask15_and, and_mask3, mask3_and, and_mask1, mask1_and,
        and_mask127, mask127_and]
      omega

/-- C1 (witness): instantiation of the amended round-trip at the all-ones
record. -/
theorem c1_roundtrip_corrected_witness :
    cfgOnes.switch_action_type < 16
      ∧ get_encoder_config (save_page cfgOnes 0 pageZero) 0
          = { cfgOnes with
              switch_midi_type := 0,
              switch_midi_channel := (cfgOnes.switch_midi_channel + 15) % 16,
              encoder_midi_channel := (cfgOnes.encoder_midi_channel + 15) % 16 } :=
  ⟨by decide,
   c1_roundtrip_corrected cfgOnes pageZero 0 (by decide) (by decide) (by decide) (by decide)
     (by decide) (by decide) (by decide) (by decide) (by decide) (by decide) (by decide)
     (by decide) (by decide) (by decide)⟩

/-! ## C4: partial-write retention -/

/-- C4 (counterexample): a partial write does NOT preserve sentinel-tagged
fields in the in-RAM settings table: `save_encoder_config` copies the whole
incoming record (sentinels included) into `encoder_settings`.  Here the prior
RAM value of `switch_midi_number` is 1, the incoming value is the sentinel
0x80, and after the write the RAM entry holds 0x80, not 1. -/
theorem c4_ram_retention_claim_false :
    0x80 ≤ cfgSentinel.switch_midi_number
      ∧ (settingsOnes (get_virtual_encoder_id 0 0)).switch_midi_number = 1
      ∧ ((save_encoder_config 0 0 cfgSentinel settingsOnes pageDemo).1
          (get_virtual_encoder_id 0 0)).switch_midi_number = 0x80 := by
  refine ⟨by decide, by decide, by decide⟩

/-- C4 (amended): during a partial write, every field at or above the 0x80
sentinel retains its prior value in the *persisted* record (decoding the
written page gives the same field as decoding the prior page); the in-RAM
table entry, however, is replaced wholesale by the incoming record, sentinel
values included. -/
theorem c4_partial_write_corrected (bank encoder : Nat) (cfg : EncoderConfig)
    (settings : Nat → EncoderConfig) (page : Nat → Nat) :
    ((save_encoder_config bank encoder cfg settings page).1
        (get_virtual_encoder_id bank encoder) = cfg)
      ∧ (0x80 ≤ cfg.switch_action_type →
          (get_encoder_config ((save_encoder_config bank encoder cfg settings page).2)
              (8 * (encoder % 4))).switch_action_type
            = (get_encoder_config page (8 * (encoder % 4))).switch_action_type)
      ∧ (0x80 ≤ cfg.switch_midi_channel →
          (get_encoder_config ((save_encoder_config bank encoder cfg settings page).2)
              (8 * (encoder % 4))).switch_midi_channel
            = (get_encoder_config page (8 * (encoder % 4))).switch_midi_channel)
      ∧ (0x80 ≤ cfg.switch_midi_number →
          (get_encoder_config ((save_encoder_config bank encoder cfg settings page).2)
              (8 * (encoder % 4))).switch_midi_number
            = (get_encoder_config page (8 * (encoder % 4))).switch_midi_number)
      ∧ (0x80 ≤ cfg.active_color →
          (get_encoder_config ((save_encoder_config bank encoder cfg settings page).2)
              (8 * (encoder % 4))).active_color
            = (get_encoder_config page (8 * (encoder % 4))).active_color)
      ∧ (0x80 ≤ cfg.inactive_color →
          (get_encoder_config ((save_encoder_config bank encoder cfg settings page).2)
              (8 * (encoder % 4))).inactive_color
            = (get_encoder_config page (8 * (encoder % 4))).inactive_color)
      ∧ (0x80 ≤ cfg.detent_color →
          (get_encoder_config ((save_encoder_config bank encoder cfg settings page).2)
              (8 * (encoder % 4))).detent_color
            = (get_encoder_config page (8 * (encoder % 4))).detent_color)
      ∧ (0x80 ≤ cfg.has_detent →
          (get_encoder_config ((save_encoder_config bank encoder cfg settings page).2)
              (8 * (encoder % 4))).has_detent
            = (get_encoder_config page (8 * (encoder % 4))).has_detent)
      ∧ (0x80 ≤ cfg.indicator_display_type →
          (get_encoder_config ((save_encoder_config bank encoder cfg settings page).2)
              (8 * (encoder % 4))).indicator_display_type
            = (get_encoder_config page (8 * (encoder % 4))).indicator_display_type)
      ∧ (0x80 ≤ cfg.movement →
          (get_encoder_config ((save_encoder_config bank encoder cfg settings page).2)
              (8 * (encoder % 4))).movement
            = (get_encoder_config page (8 * (encoder % 4))).movement)
      ∧ (0x80 ≤ cfg.encoder_shift_midi_channel →
          (get_encoder_config ((save_encoder_config bank encoder cfg settings page).2)
              (8 * (encoder % 4))).encoder_shift_midi_channel
            = (get_encoder_config page (8 * (encoder % 4))).encoder_shift_midi_channel)
      ∧ (0x80 ≤ cfg.encoder_midi_type →
          (get_encoder_config ((save_encoder_config bank encoder cfg settings page).2)
              (8 * (encoder % 4))).encoder_midi_type
            = (get_encoder_config page (8 * (encoder % 4))).encoder_midi_type)
      ∧ (0x80 ≤ cfg.encoder_midi_channel →
          (get_encoder_config ((save_encoder_config bank encoder cfg settings page).2)
              (8 * (encoder % 4))).encoder_midi_channel
            = (get_encoder_config page (8 * (encoder % 4))).encoder_midi_channel)
      ∧ (0x80 ≤ cfg.encoder_midi_number →
          (get_encoder_config ((save_encoder_config bank encoder cfg settings page).2)
              (8 * (encoder % 4))).encoder_midi_number
            = (get_encoder_config page (8 * (encoder % 4))).encoder_midi_number)
      ∧ (0x80 ≤ cfg.is_super_knob →
          (get_encoder_config ((save_encoder_config bank encoder cfg settings page).2)
              (8 * (encoder % 4))).is_super_knob
            = (get_encoder_config page (8 * (encoder % 4))).is_super_knob) := by
  refine ⟨Function.update_same _ _ _, ?_, ?_, ?_, ?_, ?_, ?_, ?_, ?_, ?_, ?_, ?_, ?_, ?_, ?_⟩
  · intro h
    simp only [save_encoder_config, get_encoder_config]
    rw [save_page_at0]
    simp only [save_byte0]
    rw [if_neg (show ¬ cfg.switch_action_type < 0x80 by omega)]
    split_ifs <;>
      · try simp only [or_and_right, and_shr, or_shr, Nat.and_assoc, Nat.shiftLeft_shiftRight,
          shl4_and15, shl2_and3, shl4_and3, shl7_and127, shl7_and1, shl4_shr2,
          Nat.and_zero, Nat.zero_and, Nat.or_zero, Nat.zero_or,
          m240_15, m15_15, m15_3, m3_3, m1_1, m252_3, m243_3, m12_3, m60_3, m63_3, m127_127,
          m128_127, Nat.reduceShiftRight]
        try simp only [and_mask15, mask15_and, and_mask3, mask3_and, and_mask1, mask1_and,
          and_mask127, mask127_and, Nat.reduceMod]
        try omega
  · intro h
    simp only [save_encoder_config, get_encoder_config]
    rw [save_page_at0]
    simp only [save_byte0]
    rw [if_neg (show ¬ cfg.switch_midi_channel < 0x80 by omega)]
    split_ifs <;>
      · try simp only [or_and_right, and_shr, or_shr, Nat.and_assoc, Nat.shiftLeft_shiftRight,
          shl4_and15, shl2_and3, shl4_and3, shl7_and127, shl7_and1, shl4_shr2,
          Nat.and_zero, Nat.zero_and, Nat.or_zero, Nat.zero_or,
          m240_15, m15_15, m15_3, m3_3, m1_1, m252_3, m243_3, m12_3, m60_3, m63_3, m127_127,
          m128_127, Nat.reduceShiftRight]
        try simp only [and_mask15, mask15_and, and_mask3, mask3_and, and_mask1, mask1_and,
          and_mask127, mask127_and, Nat.reduceMod]
        try omega
  · intro h
    simp only [save_encoder_config, get_encoder_config]
    rw [save_page_at1]
    simp only [save_byte1]
    rw [if_neg (show ¬ cfg.switch_midi_number < 0x80 by omega)]
    try rfl
  · intro h
    simp only [save_encoder_config, get_encoder_config]
    rw [save_page_at2]
    simp only [save_byte2]
    rw [if_neg (show ¬ cfg.active_color < 0x80 by omega)]
    try rfl
  · intro h
    simp only [save_encoder_config, get_encoder_config]
    rw [save_page_at3]
    simp only [save_byte3]
    rw [if_neg (show ¬ cfg.inactive_color < 0x80 by omega)]
    try rfl
  · intro h
    simp only [save_encoder_config, get_encoder_config]
    rw [save_page_at4]
    simp only [save_byte4]
    rw [if_neg (show ¬ cfg.detent_color < 0x80 by omega)]
    split_ifs <;>
      · try simp only [or_and_right, and_shr, or_shr, Nat.and_assoc, Nat.shiftLeft_shiftRight,
          shl4_and15, shl2_and3, shl4_and3, shl7_and127, shl7_and1, shl4_shr2,
          Nat.and_zero, Nat.zero_and, Nat.or_zero, Nat.zero_or,
          m240_15, m15_15, m15_3, m3_3, m1_1, m252_3, m243_3, m12_3, m60_3, m63_3, m127_127,
          m128_127, Nat.reduceShiftRight]
        try simp only [and_mask15, mask15_and, and_mask3, mask3_and, and_mask1, mask1_and,
          and_mask127, mask127_and, Nat.reduceMod]
        try omega
  · intro h
    simp only [save_encoder_config, get_encoder_config]
    rw [save_page_at4]
    simp only [save_byte4]
    rw [if_neg (show ¬ cfg.has_detent < 0x80 by omega)]
    split_ifs <;>
      · try simp only [or_and_right, and_shr, or_shr, Nat.and_assoc, Nat.shiftLeft_shiftRight,
          shl4_and15, shl2_and3, shl4_and3, shl7_and127, shl7_and1, shl4_shr2,
          Nat.and_zero, Nat.zero_and, Nat.or_zero, Nat.zero_or,
          m240_15, m15_15, m15_3, m3_3, m1_1, m252_3, m243_3, m12_3, m60_3, m63_3, m127_127,
          m128_127, Nat.reduceShiftRight]
        try simp only [and_mask15, mask15_and, and_mask3, mask3_and, and_mask1, mask1_and,
          and_mask127, mask127_and, Nat.reduceMod]
        try omega
  · intro h
    simp only [save_encoder_config, get_encoder_config]
    rw [save_page_at5]
    simp only [save_byte5]
    rw [if_neg (show ¬ cfg.indicator_display_type < 0x80 by omega)]
    split_ifs <;>
      · try simp only [or_and_right, and_shr, or_shr, Nat.and_assoc, Nat.shiftLeft_shiftRight,
          shl4_and15, shl2_and3, shl4_and3, shl7_and127, shl7_and1, shl4_shr2,
          Nat.and_zero, Nat.zero_and, Nat.or_zero, Nat.zero_or,
          m240_15, m15_15, m15_3, m3_3, m1_1, m252_3, m243_3, m12_3, m60_3, m63_3, m127_127,
          m128_127, Nat.reduceShiftRight]
        try simp only [and_mask15, mask15_and, and_mask3, mask3_and, and_mask1, mask1_and,
          and_mask127, mask127_and, Nat.reduceMod]
        try omega
  · intro h
    simp only [save_encoder_config, get_encoder_config]
    rw [save_page_at5]
    simp only [save_byte5]
    rw [if_neg (show ¬ cfg.movement < 0x80 by omega)]
    split_ifs <;>
      · try simp only [or_and_right, and_shr, or_shr, Nat.and_assoc, Nat.shiftLeft_shiftRight,
          shl4_and15, shl2_and3, shl4_and3, shl7_and127, shl7_and1, shl4_shr2,
          Nat.and_zero, Nat.zero_and, Nat.or_zero, Nat.zero_or,
          m240_15, m15_15, m15_3, m3_3, m1_1, m252_3, m243_3, m12_3, m60_3, m63_3, m127_127,
          m128_127, Nat.reduceShiftRight]
        try simp only [and_mask15, mask15_and, and_mask3, mask3_and, and_mask1, mask1_and,
          and_mask127, mask127_and, Nat.reduceMod]
        try omega
  · intro h
    simp only [save_encoder_config, get_encoder_config]
    rw [save_page_at5]
    simp only [save_byte5]
    rw [if_neg (show ¬ cfg.encoder_shift_midi_channel < 0x80 by omega)]
    split_ifs <;>
      · try simp only [or_and_right, and_shr, or_shr, Nat.and_assoc, Nat.shiftLeft_shiftRight,
          shl4_and15, shl2_and3, shl4_and3, shl7_and127, shl7_and1, shl4_shr2,
          Nat.and_zero, Nat.zero_and, Nat.or_zero, Nat.zero_or,
          m240_15, m15_15, m15_3, m3_3, m1_1, m252_3, m243_3, m12_3, m60_3, m63_3, m127_127,
          m128_127, Nat.reduceShiftRight]
        try simp only [and_mask15, mask15_and, and_mask3, mask3_and, and_mask1, mask1_and,
          and_mask127, mask127_and, Nat.reduceMod]
        try omega
  · intro h
    simp only [save_encoder_config, get_encoder_config]
    rw [save_page_at6]
    simp only [save_byte6]
    rw [if_neg (show ¬ cfg.encoder_midi_type < 0x80 by omega)]
    split_ifs <;>
      · try simp only [or_and_right, and_shr, or_shr, Nat.and_assoc, Nat.shiftLeft_shiftRight,
          shl4_and15, shl2_and3, shl4_and3, shl7_and127, shl7_and1, shl4_shr2,
          Nat.and_zero, Nat.zero_and, Nat.or_zero, Nat.zero_or,
          m240_15, m15_15, m15_3, m3_3, m1_1, m252_3, m243_3, m12_3, m60_3, m63_3, m127_127,
          m128_127, Nat.reduceShiftRight]
        try simp only [and_mask15, mask15_and, and_mask3, mask3_and, and_mask1, mask1_and,
          and_mask127, mask127_and, Nat.reduceMod]
        try omega
  · intro h
    simp only [save_encoder_config, get_encoder_config]
    rw [save_page_at6]
    simp only [save_byte6]
    rw [if_neg (show ¬ cfg.encoder_midi_channel < 0x80 by omega)]
    split_ifs <;>
      · try simp only [or_and_right, and_shr, or_shr, Nat.and_assoc, Nat.shiftLeft_shiftRight,
          shl4_and15, shl2_and3, shl4_and3, shl7_and127, shl7_and1, shl4_shr2,
          Nat.and_zero, Nat.zero_and, Nat.or_zero, Nat.zero_or,
          m240_15, m15_15, m15_3, m3_3, m1_1, m252_3, m243_3, m12_3, m60_3, m63_3, m127_127,
          m128_127, Nat.reduceShiftRight]
        try simp only [and_mask15, mask15_and, and_mask3, mask3_and, and_mask1, mask1_and,
          and_mask127, mask127_and, Nat.reduceMod]
        try omega
  · intro h
    simp only [save_encoder_config, get_encoder_config]
    rw [save_page_at7]
    simp only [save_byte7]
    rw [if_neg (show ¬ cfg.encoder_midi_number < 0x80 by omega)]
    split_ifs <;>
      · try simp only [or_and_right, and_shr, or_shr, Nat.and_assoc, Nat.shiftLeft_shiftRight,
          shl4_and15, shl2_and3, shl4_and3, shl7_and127, shl7_and1, shl4_shr2,
          Nat.and_zero, Nat.zero_and, Nat.or_zero, Nat.zero_or,
          m240_15, m15_15, m15_3, m3_3, m1_1, m252_3, m243_3, m12_3, m60_3, m63_3, m127_127,
          m128_127, Nat.reduceShiftRight]
        try simp only [and_mask15, mask15_and, and_mask3, mask3_and, and_mask1, mask1_and,
          and_mask127, mask127_and, Nat.reduceMod]
        try omega
  · intro h
    simp only [save_encoder_config, get_encoder_config]
    rw [save_page_at7]
    simp only [save_byte7]
    rw [if_neg (show ¬ cfg.is_super_knob < 0x80 by omega)]
    split_ifs with hg <;>
      · try simp only [or_and_right, and_shr, or_shr, Nat.and_assoc, Nat.shiftLeft_shiftRight,
          shl4_and15, shl2_and3, shl4_and3, shl7_and127, shl7_and1, shl4_shr2,
          Nat.and_zero, Nat.zero_and, Nat.or_zero, Nat.zero_or,
          m240_15, m15_15, m15_3, m3_3, m1_1, m252_3, m243_3, m12_3, m60_3, m63_3, m127_127,
          m128_127, Nat.reduceShiftRight]
        try rw [show cfg.encoder_midi_number >>> 7 = 0 from by
          rw [Nat.shiftRight_eq_div_pow]; omega]
        try simp only [Nat.and_zero, Nat.zero_and, Nat.or_zero, Nat.zero_or]
        try simp only [and_mask15, mask15_and, and_mask3, mask3_and, and_mask1, mask1_and,
          and_mask127, mask127_and, Nat.reduceMod]
        try omega

/-- C4 (witness): instantiation at a concrete partial write (all-sentinel
incoming record over a prior page). -/
theorem c4_partial_write_corrected_witness :
    ((save_encoder_config 0 0 cfgSentinel settingsOnes pageDemo).1
        (get_virtual_encoder_id 0 0) = cfgSentinel)
      ∧ (get_encoder_config ((save_encoder_config 0 0 cfgSentinel settingsOnes pageDemo).2)
            (8 * (0 % 4))).switch_action_type
          = (get_encoder_config pageDemo (8 * (0 % 4))).switch_action_type :=
  ⟨(c4_partial_write_corrected 0 0 cfgSentinel settingsOnes pageDemo).1,
   (c4_partial_write_corrected 0 0 cfgSentinel settingsOnes pageDemo).2.1 (by decide)⟩

/-! ## C2: high-resolution prefix feedback -/

set_option maxRecDepth 65536

set_option maxHeartbeats 2000000

/-- C2 (counterexample): the inbound dispatcher has no high-resolution prefix
cache.  Sending prefix-CC(value = 0x41) and then primary-CC(value = 0x3F) on
the rotary-feedback channel leaves the addressed slot's raw value at
`0x3F << 7 = 0x1F80`, not `(0x3F << 7) ||| 0x41 = 0x1FC1` as claimed. -/
theorem c2_hires_roundtrip_claim_false :
    (process_element_midi c2Env
        (process_element_midi c2Env c2State 3 SEND_CC MIDI_CC_HIGH_RES_VELOCITY 0x41)
        3 SEND_CC 10 0x3F).raw 0 = 0x1F80
      ∧ ((0x1F80 : Int) ≠ ((0x3F <<< 7 : Nat) ||| 0x41 : Nat)) := by
  refine ⟨by decide, by decide⟩

/-- A fold whose step fixes every state that satisfies an invariant `P`
leaves the initial state unchanged. -/
theorem foldl_id_inv {α β : Type} (f : α → β → α) (l : List β) (s : α) (P : α → Prop)
    (hs : P s) (hstep : ∀ s' b, b ∈ l → P s' → f s' b = s') : l.foldl f s = s := by
  induction l with
  | nil => rfl
  | cons a t ih =>
    rw [List.foldl_cons, hstep s a (List.mem_cons_self a t) hs]
    exact ih fun s' b hb hP => hstep s' b (List.mem_cons_of_mem a hb) hP

/-- A dispatcher scan step is the identity on a slot whose encoder and switch
MIDI numbers both differ from the inbound number. -/
theorem process_element_midi_step_nomatch (env : MidiEnv)
    (channel ty number value : Nat) (st : EncState) (i : Nat)
    (h1 : (st.settings i).encoder_midi_number ≠ number)
    (h2 : (st.settings i).switch_midi_number ≠ number) :
    process_element_midi_step env channel ty number value st i = st := by
  simp only [process_element_midi_step]
  rw [if_neg h1, if_neg h2]

/-- `process_indicator_update` does not modify the settings table. -/
theorem process_indicator_update_settings (st : EncState) (idx value : Nat) :
    (process_indicator_update st idx value).settings = st.settings := by
  simp only [process_indicator_update]
  split_ifs <;> rfl

/-- The prefix CC (number 0x58) matches no mapping of `c2Settings` and leaves
the whole state untouched. -/
theorem c2_prefix_noop (low : Nat) :
    process_element_midi c2Env c2State 3 SEND_CC MIDI_CC_HIGH_RES_VELOCITY low = c2State := by
  unfold process_element_midi
  rw [if_neg (show ¬ (3 : Nat) = c2Env.systemChannel by decide)]
  refine foldl_id_inv _ _ _ (fun s => s.settings = c2Settings) rfl ?_
  intro s' b _ hP
  refine process_element_midi_step_nomatch _ _ _ _ _ _ _ ?_ ?_ <;>
    · rw [hP]
      unfold c2Settings
      split_ifs <;> decide

/-- The primary CC (number 10) matches exactly slot 0 of `c2Settings` and the
scan reduces to a single `process_indicator_update`. -/
theorem c2_primary_single (high : Nat) :
    process_element_midi c2Env c2State 3 SEND_CC 10 high
      = process_indicator_update c2State 0 high := by
  unfold process_element_midi
  rw [if_neg (show ¬ (3 : Nat) = c2Env.systemChannel by decide)]
  rw [show List.range 64 = 0 :: (List.range 63).map (· + 1) from List.range_succ_eq_map 63]
  rw [List.foldl_cons]
  have hstep0 : process_element_midi_step c2Env 3 SEND_CC 10 high c2State 0
      = process_indicator_update c2State 0 high := by
    simp only [process_element_midi_step]
    rw [if_pos (show (c2State.settings 0).encoder_midi_number = 10 by decide)]
    rw [if_pos (show (c2State.settings 0).encoder_midi_channel = 3 by decide)]
    simp only [if_true]
    rw [if_pos (Or.inl (show (c2State.settings 0).encoder_midi_type = SEND_CC by decide))]
    rw [process_indicator_update_settings]
    rw [if_neg (show ¬ (c2State.settings 0).switch_midi_number = 10 by decide)]
  rw [hstep0]
  refine foldl_id_inv _ _ _ (fun s => s.settings = c2Settings) ?_ ?_
  · show (process_indicator_update c2State 0 high).settings = c2Settings
    rw [process_indicator_update_settings]
    rfl
  · intro s' b hb hP
    obtain ⟨x, _, rfl⟩ := List.mem_map.mp hb
    refine process_element_midi_step_nomatch _ _ _ _ _ _ _ ?_ ?_ <;>
      · rw [hP]
        unfold c2Settings
        rw [if_neg (by omega)]
        decide

/-- C2 (amended): the prefix CC (reserved number 0x58) matches no mapping and
leaves the raw value unchanged; the following primary CC overwrites the
addressed slot's raw value with its 7-bit value shifted left by 7 — the
previously sent low bits are not combined in. -/
theorem c2_hires_corrected (low high : Nat) (hlow : low < 128) (hhigh : high < 128) :
    ((process_element_midi c2Env c2State 3 SEND_CC MIDI_CC_HIGH_RES_VELOCITY low).raw 0
        = c2State.raw 0)
      ∧ ((process_element_midi c2Env
            (process_element_midi c2Env c2State 3 SEND_CC MIDI_CC_HIGH_RES_VELOCITY low)
            3 SEND_CC 10 high).raw 0 = ((high <<< 7 : Nat) : Int))
      ∧ ((process_element_midi c2Env
            (process_element_midi c2Env c2State 3 SEND_CC MIDI_CC_HIGH_RES_VELOCITY low)
            3 SEND_CC 10 high).indicator 0 0 = high) := by
  rw [c2_prefix_noop, c2_primary_single]
  refine ⟨rfl, ?_, ?_⟩ <;>
    · simp only [process_indicator_update]
      rw [if_pos (show (0 : Nat) >>> 4 = current_encoder_bank c2State by decide),
        if_pos (show (!(c2State.encoderActive (0 &&& 0x0F))
            || encoder_midi_type_is_relative c2State (0 &&& 0x0F)) = true by decide)]
      simp [upd2, Function.update_same, show (0 &&& 15 : Nat) = 0 from rfl]
      try exact Function.update_same _ _ _

/-- C2 (witness): instantiation at the spec's concrete values 0x41 / 0x3F. -/
theorem c2_hires_corrected_witness :
    ((process_element_midi c2Env c2State 3 SEND_CC MIDI_CC_HIGH_RES_VELOCITY 0x41).raw 0
        = c2State.raw 0)
      ∧ ((process_element_midi c2Env
            (process_element_midi c2Env c2State 3 SEND_CC MIDI_CC_HIGH_RES_VELOCITY 0x41)
            3 SEND_CC 10 0x3F).raw 0 = ((0x3F <<< 7 : Nat) : Int))
      ∧ ((process_element_midi c2Env
            (process_element_midi c2Env c2State 3 SEND_CC MIDI_CC_HIGH_RES_VELOCITY 0x41)
            3 SEND_CC 10 0x3F).indicator 0 0 = 0x3F) :=
  c2_hires_corrected 0x41 0x3F (by decide) (by decide)

/-! ## C3: animation conflict arbitration -/

/-- C3 (counterexample): with switch-class id 5 and indicator-class id 60
simultaneously active on the same position, the scheduler cycle issues *two*
animation run calls (the ids are of different classes, so
`animation_buffer_conflict_exists` reports no conflict) and both
previous-animation caches are overwritten, contradicting the claim that
nothing renders and both caches stay. -/
theorem c3_conflict_claim_false :
    animation_buffer_conflict_exists c3State 0 0 = false
      ∧ (update_encoder_display c3State).2
          = [DisplayEvent.runAnimation 0 0 60 0, DisplayEvent.runAnimation 0 0 5 0]
      ∧ (update_encoder_display c3State).1.prevEncoderAnim 0 = 60
      ∧ c3State.prevEncoderAnim 0 = 1
      ∧ (update_encoder_display c3State).1.prevSwAnim 0 = 5
      ∧ c3State.prevSwAnim 0 = 2 := by
  refine ⟨by decide, by decide, by decide, by decide, by decide, by decide⟩

/-- The indicator-diff block changes none of the fields the animation blocks
read or write. -/
theorem display_block_indicator_fields (st : EncState) :
    ((display_block_indicator st).1.bank = st.bank)
      ∧ ((display_block_indicator st).1.dispIdx = st.dispIdx)
      ∧ ((display_block_indicator st).1.switchColor = st.switchColor)
      ∧ ((display_block_indicator st).1.switchAnim = st.switchAnim)
      ∧ ((display_block_indicator st).1.encoderAnim = st.encoderAnim)
      ∧ ((display_block_indicator st).1.prevEncoderAnim = st.prevEncoderAnim)
      ∧ ((display_block_indicator st).1.prevSwAnim = st.prevSwAnim) := by
  simp only [display_block_indicator]
  split_ifs <;> exact ⟨rfl, rfl, rfl, rfl, rfl, rfl, rfl⟩

/-- The RGB-diff block changes none of the fields the animation blocks read
or write. -/
theorem display_block_rgb_fields (st : EncState) :
    ((display_block_rgb st).1.bank = st.bank)
      ∧ ((display_block_rgb st).1.dispIdx = st.dispIdx)
      ∧ ((display_block_rgb st).1.switchColor = st.switchColor)
      ∧ ((display_block_rgb st).1.switchAnim = st.switchAnim)
      ∧ ((display_block_rgb st).1.encoderAnim = st.encoderAnim)
      ∧ ((display_block_rgb st).1.prevEncoderAnim = st.prevEncoderAnim)
      ∧ ((display_block_rgb st).1.prevSwAnim = st.prevSwAnim) := by
  simp only [display_block_rgb]
  split_ifs <;> exact ⟨rfl, rfl, rfl, rfl, rfl, rfl, rfl⟩

/-- When the encoder animation buffer holds a non-zero id the encoder
animation block runs it and caches it. -/
theorem display_block_encoder_anim_run (st : EncState)
    (h : st.encoderAnim st.bank st.dispIdx ≠ 0) :
    display_block_encoder_anim st
      = ({ st with prevEncoderAnim := (Function.update st.prevEncoderAnim st.dispIdx
              (st.encoderAnim st.bank st.dispIdx)) },
         [DisplayEvent.runAnimation st.dispIdx st.bank
            (st.encoderAnim st.bank st.dispIdx) (st.switchColor st.bank st.dispIdx)]) := by
  simp only [display_block_encoder_anim]
  rw [if_pos h]

/-- When no conflict is reported and the switch animation buffer holds a
non-zero id the switch animation block runs it and caches it. -/
theorem display_block_switch_anim_run (st : EncState)
    (hc : animation_buffer_conflict_exists st st.bank st.dispIdx = false)
    (h : st.switchAnim st.bank st.dispIdx ≠ 0) :
    display_block_switch_anim st
      = ({ st with prevSwAnim := (Function.update st.prevSwAnim st.dispIdx
              (st.switchAnim st.bank st.dispIdx)) },
         [DisplayEvent.runAnimation st.dispIdx st.bank
            (st.switchAnim st.bank st.dispIdx) (st.switchColor st.bank st.dispIdx)]) := by
  simp only [display_block_switch_anim]
  rw [hc]
  simp only [Bool.not_false, if_true]
  rw [if_pos h]

/-- A switch-class id and an indicator-class id on the same position never
conflict (the conflict predicate requires both ids to be of the same
class). -/
theorem animation_conflict_mixed_false (st : EncState) (b i s e : Nat)
    (hs1 : 1 ≤ s) (hs2 : s ≤ 48 ∨ s = 127) (he1 : 49 ≤ e) (he2 : e ≤ 96)
    (hsw : st.switchAnim b i = s) (hen : st.encoderAnim b i = e) :
    animation_buffer_conflict_exists st b i = false := by
  simp only [animation_buffer_conflict_exists]
  rw [hsw, hen]
  split_ifs <;> first | rfl | (exfalso; omega)

/-- C3 (amended): a switch-class id `s` (1-48 or 127) in the switch buffer
and an indicator-class id `e` (49-96) in the encoder buffer on the same
position do not conflict; the scheduler cycle issues a run call for *both*
animations, and both previous-animation caches are overwritten with the
running ids. -/
theorem c3_animation_conflict_corrected (st : EncState) (s e : Nat)
    (hs1 : 1 ≤ s) (hs2 : s ≤ 48 ∨ s = 127) (he1 : 49 ≤ e) (he2 : e ≤ 96)
    (hsw : st.switchAnim st.bank st.dispIdx = s)
    (hen : st.encoderAnim st.bank st.dispIdx = e) :
    animation_buffer_conflict_exists st st.bank st.dispIdx = false
      ∧ DisplayEvent.runAnimation st.dispIdx st.bank e (st.switchColor st.bank st.dispIdx)
          ∈ (update_encoder_display st).2
      ∧ DisplayEvent.runAnimation st.dispIdx st.bank s (st.switchColor st.bank st.dispIdx)
          ∈ (update_encoder_display st).2
      ∧ (update_encoder_display st).1.prevEncoderAnim st.dispIdx = e
      ∧ (update_encoder_display st).1.prevSwAnim st.dispIdx = s := by
  obtain ⟨hb1, hd1, hc1, hswa1, hena1, hpe1, hps1⟩ := display_block_indicator_fields st
  obtain ⟨hb2, hd2, hc2, hswa2, hena2, hpe2, hps2⟩ :=
    display_block_rgb_fields (display_block_indicator st).1
  have hen12 : (display_block_rgb (display_block_indicator st).1).1.encoderAnim
      ((display_block_rgb (display_block_indicator st).1).1.bank)
      ((display_block_rgb (display_block_indicator st).1).1.dispIdx) = e := by
    rw [hena2, hb2, hd2, hena1, hb1, hd1, hen]
  have hsw12 : (display_block_rgb (display_block_indicator st).1).1.switchAnim
      ((display_block_rgb (display_block_indicator st).1).1.bank)
      ((display_block_rgb (display_block_indicator st).1).1.dispIdx) = s := by
    rw [hswa2, hb2, hd2, hswa1, hb1, hd1, hsw]
  have hswne12 : (display_block_rgb (display_block_indicator st).1).1.switchAnim
      ((display_block_rgb (display_block_indicator st).1).1.bank)
      ((display_block_rgb (display_block_indicator st).1).1.dispIdx) ≠ 0 := by
    rw [hsw12]; omega
  have h3 := display_block_encoder_anim_run (display_block_rgb (display_block_indicator st).1).1
    (by rw [hen12]; omega)
  have hconf : animation_buffer_conflict_exists st st.bank st.dispIdx = false :=
    animation_conflict_mixed_false st st.bank st.dispIdx s e hs1 hs2 he1 he2 hsw hen
  have h4 := display_block_switch_anim_run
    (display_block_encoder_anim (display_block_rgb (display_block_indicator st).1).1).1
    (by rw [h3]
        exact animation_conflict_mixed_false _ _ _ s e hs1 hs2 he1 he2 hsw12 hen12)
    (by rw [h3]; exact hswne12)
  refine ⟨hconf, ?_, ?_, ?_, ?_⟩
  · show _ ∈ (update_encoder_display st).2
    simp only [update_encoder_display, List.mem_append]
    rw [h3]
    refine Or.inl (Or.inr ?_)
    dsimp only
    rw [hen12, hb2, hd2, hb1, hd1, hc2, hc1]
    exact List.mem_singleton.mpr rfl
  · show _ ∈ (update_encoder_display st).2
    simp only [update_encoder_display, List.mem_append]
    rw [h4]
    refine Or.inr ?_
    rw [h3]
    dsimp only
    rw [hsw12, hb2, hd2, hb1, hd1, hc2, hc1]
    exact List.mem_singleton.mpr rfl
  · show (update_encoder_display st).1.prevEncoderAnim st.dispIdx = e
    simp only [update_encoder_display]
    rw [h4]
    dsimp only
    rw [h3]
    dsimp only
    rw [hd2, hd1, Function.update_same]
    rw [hena2, hena1, hb2, hb1, hen]
  · show (update_encoder_display st).1.prevSwAnim st.dispIdx = s
    simp only [update_encoder_display]
    rw [h4]
    dsimp only
    rw [h3]
    dsimp only
    rw [hd2, hd1, Function.update_same]
    rw [hswa2, hswa1, hb2, hb1, hsw]

/-- C3 (witness): instantiation of the amended conflict behaviour at the
concrete ids 5 and 60 of the scenario state. -/
theorem c3_animation_conflict_corrected_witness :
    animation_buffer_conflict_exists c3State c3State.bank c3State.dispIdx = false
      ∧ DisplayEvent.runAnimation c3State.dispIdx c3State.bank 60
          (c3State.switchColor c3State.bank c3State.dispIdx)
          ∈ (update_encoder_display c3State).2
      ∧ DisplayEvent.runAnimation c3State.dispIdx c3State.bank 5
          (c3State.switchColor c3State.bank c3State.dispIdx)
          ∈ (update_encoder_display c3State).2
      ∧ (update_encoder_display c3State).1.prevEncoderAnim c3State.dispIdx = 60
      ∧ (update_encoder_display c3State).1.prevSwAnim c3State.dispIdx = 5 :=
  c3_animation_conflict_corrected c3State 5 60 (by decide) (by decide) (by decide) (by decide)
    (by decide) (by decide)

/-! ## Transfer-scan lemmas -/

theorem transfer_inner_nil (cb ei tb : Nat) (s : TransferSt) :
    transfer_inner cb ei tb [] s = s := rfl

theorem transfer_inner_cons (cb ei tb a : Nat) (t : List Nat) (s : TransferSt) :
    transfer_inner cb ei tb (a :: t) s
      = transfer_inner cb ei tb t (transfer_copy cb ei tb a s) := rfl

theorem transfer_outer_nil (cb ei : Nat) (s : TransferSt) :
    transfer_outer cb ei [] s = s := rfl

theorem transfer_outer_cons (cb ei a : Nat) (t : List Nat) (s : TransferSt) :
    transfer_outer cb ei (a :: t) s
      = transfer_outer cb ei t
          (if a = cb then s
           else transfer_inner cb ei a (List.range PHYSICAL_ENCODERS) s) := rfl

theorem transfer_copy_fields (cb ei tb te : Nat) (s : TransferSt) :
    ((transfer_copy cb ei tb te s).1.prevIndicator = s.1.prevIndicator)
      ∧ ((transfer_copy cb ei tb te s).1.prevSwitchColor = s.1.prevSwitchColor)
      ∧ ((transfer_copy cb ei tb te s).1.prevEncoderAnim = s.1.prevEncoderAnim)
      ∧ ((transfer_copy cb ei tb te s).1.prevSwAnim = s.1.prevSwAnim)
      ∧ ((transfer_copy cb ei tb te s).1.bank = s.1.bank)
      ∧ ((transfer_copy cb ei tb te s).1.dispIdx = s.1.dispIdx)
      ∧ ((transfer_copy cb ei tb te s).1.settings = s.1.settings) := by
  simp only [transfer_copy]
  split_ifs <;> exact ⟨rfl, rfl, rfl, rfl, rfl, rfl, rfl⟩

theorem transfer_inner_fields (cb ei tb : Nat) (l : List Nat) (s : TransferSt) :
    ((transfer_inner cb ei tb l s).1.prevIndicator = s.1.prevIndicator)
      ∧ ((transfer_inner cb ei tb l s).1.prevSwitchColor = s.1.prevSwitchColor)
      ∧ ((transfer_inner cb ei tb l s).1.prevEncoderAnim = s.1.prevEncoderAnim)
      ∧ ((transfer_inner cb ei tb l s).1.prevSwAnim = s.1.prevSwAnim)
      ∧ ((transfer_inner cb ei tb l s).1.bank = s.1.bank)
      ∧ ((transfer_inner cb ei tb l s).1.dispIdx = s.1.dispIdx)
      ∧ ((transfer_inner cb ei tb l s).1.settings = s.1.settings) := by
  induction l generalizing s with
  | nil => exact ⟨rfl, rfl, rfl, rfl, rfl, rfl, rfl⟩
  | cons a t ih =>
    rw [transfer_inner_cons]
    obtain ⟨e1, e2, e3, e4, e5, e6, e7⟩ := ih (transfer_copy cb ei tb a s)
    obtain ⟨f1, f2, f3, f4, f5, f6, f7⟩ := transfer_copy_fields cb ei tb a s
    exact ⟨e1.trans f1, e2.trans f2, e3.trans f3, e4.trans f4, e5.trans f5,
      e6.trans f6, e7.trans f7⟩

theorem transfer_outer_fields (cb ei : Nat) (l : List Nat) (s : TransferSt) :
    ((transfer_outer cb ei l s).1.prevIndicator = s.1.prevIndicator)
      ∧ ((transfer_outer cb ei l s).1.prevSwitchColor = s.1.prevSwitchColor)
      ∧ ((transfer_outer cb ei l s).1.prevEncoderAnim = s.1.prevEncoderAnim)
      ∧ ((transfer_outer cb ei l s).1.prevSwAnim = s.1.prevSwAnim)
      ∧ ((transfer_outer cb ei l s).1.bank = s.1.bank)
      ∧ ((transfer_outer cb ei l s).1.dispIdx = s.1.dispIdx)
      ∧ ((transfer_outer cb ei l s).1.settings = s.1.settings) := by
  induction l generalizing s with
  | nil => exact ⟨rfl, rfl, rfl, rfl, rfl, rfl, rfl⟩
  | cons a t ih =>
    rw [transfer_outer_cons]
    by_cases ha : a = cb
    · rw [if_pos ha]
      exact ih s
    · rw [if_neg ha]
      obtain ⟨e1, e2, e3, e4, e5, e6, e7⟩ :=
        ih (transfer_inner cb ei a (List.range PHYSICAL_ENCODERS) s)
      obtain ⟨f1, f2, f3, f4, f5, f6, f7⟩ :=
        transfer_inner_fields cb ei a (List.range PHYSICAL_ENCODERS) s
      exact ⟨e1.trans f1, e2.trans f2, e3.trans f3, e4.trans f4, e5.trans f5,
        e6.trans f6, e7.trans f7⟩

theorem transfer_all_cons (cb a : Nat) (t : List Nat) (s : TransferSt) :
    (a :: t).foldl (fun s ei => transfer_this_encoder_value_to_other_banks cb ei s) s
      = t.foldl (fun s ei => transfer_this_encoder_value_to_other_banks cb ei s)
          (transfer_this_encoder_value_to_other_banks cb a s) := rfl

theorem transfer_all_fields (cb : Nat) (l : List Nat) (s : TransferSt) :
    ((l.foldl (fun s ei => transfer_this_encoder_value_to_other_banks cb ei s) s).1.prevIndicator
        = s.1.prevIndicator)
      ∧ ((l.foldl (fun s ei => transfer_this_encoder_value_to_other_banks cb ei s) s).1.prevSwitchColor
          = s.1.prevSwitchColor)
      ∧ ((l.foldl (fun s ei => transfer_this_encoder_value_to_other_banks cb ei s) s).1.prevEncoderAnim
          = s.1.prevEncoderAnim)
      ∧ ((l.foldl (fun s ei => transfer_this_encoder_value_to_other_banks cb ei s) s).1.prevSwAnim
          = s.1.prevSwAnim)
      ∧ ((l.foldl (fun s ei => transfer_this_encoder_value_to_other_banks cb ei s) s).1.bank
          = s.1.bank)
      ∧ ((l.foldl (fun s ei => transfer_this_encoder_value_to_other_banks cb ei s) s).1.dispIdx
          = s.1.dispIdx)
      ∧ ((l.foldl (fun s ei => transfer_this_encoder_value_to_other_banks cb ei s) s).1.settings
          = s.1.settings) := by
  induction l generalizing s with
  | nil => exact ⟨rfl, rfl, rfl, rfl, rfl, rfl, rfl⟩
  | cons a t ih =>
    rw [transfer_all_cons]
    obtain ⟨e1, e2, e3, e4, e5, e6, e7⟩ := ih (transfer_this_encoder_value_to_other_banks cb a s)
    obtain ⟨f1, f2, f3, f4, f5, f6, f7⟩ :=
      transfer_outer_fields cb a (List.range NUM_BANKS) s
    exact ⟨e1.trans f1, e2.trans f2, e3.trans f3, e4.trans f4, e5.trans f5,
      e6.trans f6, e7.trans f7⟩

/-- Field preservation, stated for the named transfer entry point. -/
theorem transfer_fields (cb : Nat) (s : TransferSt) :
    ((transfer_encoder_values_to_other_banks cb s).1.prevIndicator = s.1.prevIndicator)
      ∧ ((transfer_encoder_values_to_other_banks cb s).1.prevSwitchColor = s.1.prevSwitchColor)
      ∧ ((transfer_encoder_values_to_other_banks cb s).1.prevEncoderAnim = s.1.prevEncoderAnim)
      ∧ ((transfer_encoder_values_to_other_banks cb s).1.prevSwAnim = s.1.prevSwAnim)
      ∧ ((transfer_encoder_values_to_other_banks cb s).1.bank = s.1.bank)
      ∧ ((transfer_encoder_values_to_other_banks cb s).1.dispIdx = s.1.dispIdx)
      ∧ ((transfer_encoder_values_to_other_banks cb s).1.settings = s.1.settings) :=
  transfer_all_fields cb (List.range PHYSICAL_ENCODERS) s

/-! ## Bank-change loop lemmas -/

theorem change_bank_step_prevInd (nb : Nat) (s : EncState) (i x : Nat) (hx : x ≠ i) :
    (change_bank_step nb s i).prevIndicator x = s.prevIndicator x :=
  Function.update_noteq hx _ _

theorem change_bank_step_prevCol (nb : Nat) (s : EncState) (i x : Nat) (hx : x ≠ i) :
    (change_bank_step nb s i).prevSwitchColor x = s.prevSwitchColor x :=
  Function.update_noteq hx _ _

theorem change_loop_fields (nb : Nat) (l : List Nat) (s : EncState) :
    ((l.foldl (change_bank_step nb) s).raw = s.raw)
      ∧ ((l.foldl (change_bank_step nb) s).settings = s.settings)
      ∧ ((l.foldl (change_bank_step nb) s).bank = s.bank)
      ∧ ((l.foldl (change_bank_step nb) s).prevEncoderAnim = s.prevEncoderAnim)
      ∧ ((l.foldl (change_bank_step nb) s).prevSwAnim = s.prevSwAnim) := by
  induction l generalizing s with
  | nil => exact ⟨rfl, rfl, rfl, rfl, rfl⟩
  | cons a t ih =>
    rw [List.foldl_cons]
    obtain ⟨e1, e2, e3, e4, e5⟩ := ih (change_bank_step nb s a)
    exact ⟨e1.trans rfl, e2.trans rfl, e3.trans rfl, e4.trans rfl, e5.trans rfl⟩

theorem change_loop_prev_untouched (nb : Nat) (l : List Nat) (s : EncState) (x : Nat)
    (hx : x ∉ l) :
    ((l.foldl (change_bank_step nb) s).prevIndicator x = s.prevIndicator x)
      ∧ ((l.foldl (change_bank_step nb) s).prevSwitchColor x = s.prevSwitchColor x) := by
  induction l generalizing s with
  | nil => exact ⟨rfl, rfl⟩
  | cons a t ih =>
    rw [List.foldl_cons]
    have hxa : x ≠ a := fun h => hx (h ▸ List.mem_cons_self a t)
    obtain ⟨e1, e2⟩ := ih (change_bank_step nb s a) (fun h => hx (List.mem_cons_of_mem a h))
    exact ⟨e1.trans (change_bank_step_prevInd nb s a x hxa),
      e2.trans (change_bank_step_prevCol nb s a x hxa)⟩

theorem change_loop_prev_mem (nb : Nat) (l : List Nat) (s : EncState) (x : Nat)
    (hx : x ∈ l) (hnd : l.Nodup) :
    ((l.foldl (change_bank_step nb) s).prevIndicator x = 255)
      ∧ ((l.foldl (change_bank_step nb) s).prevSwitchColor x = 255) := by
  induction l generalizing s with
  | nil => exact absurd hx (List.not_mem_nil x)
  | cons a t ih =>
    rw [List.foldl_cons]
    rw [List.nodup_cons] at hnd
    by_cases hxa : x = a
    · subst hxa
      obtain ⟨e1, e2⟩ := change_loop_prev_untouched nb t (change_bank_step nb s x) x hnd.1
      refine ⟨e1.trans ?_, e2.trans ?_⟩
      · exact Function.update_same _ _ _
      · exact Function.update_same _ _ _
    · have hxt : x ∈ t := by
        rcases List.mem_cons.mp hx with h | h
        · exact absurd h hxa
        · exact h
      exact ih (change_bank_step nb s a) hxt hnd.2

theorem change_encoder_bank_eq (st : EncState) (nb : Nat) :
    change_encoder_bank st nb
      = ({ (List.range 16).foldl (change_bank_step nb)
            (transfer_encoder_values_to_other_banks st.bank (st, [])).1 with bank := nb },
         (transfer_encoder_values_to_other_banks st.bank (st, [])).2) := rfl

/-- What `change_encoder_bank` does to the previous-value caches: the
indicator and RGB caches of every physical position are forced to 255, the
two animation caches and the rest of the previous state are untouched, and
the new bank is committed. -/
theorem change_bank_prev_spec (st : EncState) (new_bank i : Nat) (hi : i < 16) :
    ((change_encoder_bank st new_bank).1.prevIndicator i = 255)
      ∧ ((change_encoder_bank st new_bank).1.prevSwitchColor i = 255)
      ∧ ((change_encoder_bank st new_bank).1.prevEncoderAnim i = st.prevEncoderAnim i)
      ∧ ((change_encoder_bank st new_bank).1.prevSwAnim i = st.prevSwAnim i)
      ∧ ((change_encoder_bank st new_bank).1.bank = new_bank) := by
  rw [change_encoder_bank_eq]
  obtain ⟨m1, m2⟩ := change_loop_prev_mem new_bank (List.range 16)
    (transfer_encoder_values_to_other_banks st.bank (st, [])).1 i
    (List.mem_range.mpr hi) (List.nodup_range 16)
  obtain ⟨l1, l2, l3, l4, l5⟩ := change_loop_fields new_bank (List.range 16)
    (transfer_encoder_values_to_other_banks st.bank (st, [])).1
  obtain ⟨t1, t2, t3, t4, t5, t6, t7⟩ := transfer_fields st.bank (st, [])
  refine ⟨m1, m2, ?_, ?_, rfl⟩
  · show (List.foldl (change_bank_step new_bank)
        (transfer_encoder_values_to_other_banks st.bank (st, [])).1
        (List.range 16)).prevEncoderAnim i = st.prevEncoderAnim i
    rw [l4, t3]
  · show (List.foldl (change_bank_step new_bank)
        (transfer_encoder_values_to_other_banks st.bank (st, [])).1
        (List.range 16)).prevSwAnim i = st.prevSwAnim i
    rw [l5, t4]

/-! ## C7: bank-change display invalidation -/

/-- C7 (counterexample): `change_encoder_bank` does NOT force the two
previous-animation caches to the 255 sentinel: with prior values 7 and 9
they still hold 7 and 9 after the bank change (only the indicator and RGB
previous values are forced to 255). -/
theorem c7_change_bank_claim_false :
    ((change_encoder_bank c7State 1).1.prevEncoderAnim 0 = 7)
      ∧ ((change_encoder_bank c7State 1).1.prevSwAnim 0 = 9)
      ∧ ((7 : Nat) ≠ 255) ∧ ((9 : Nat) ≠ 255)
      ∧ ((change_encoder_bank c7State 1).1.prevIndicator 0 = 255) := by
  obtain ⟨p1, p2, p3, p4, p5⟩ := change_bank_prev_spec c7State 1 0 (by omega)
  exact ⟨p3.trans rfl, p4.trans rfl, by omega, by omega, p1⟩

/-- C7 (amended): `change_encoder_bank(new_bank)` forces the previous
indicator value and previous RGB color of every physical position to the
unrepresentable sentinel 255 (`(uint8_t)-1`) and commits `new_bank` as the
current bank; the previous-animation caches of the two animation channels
are NOT touched. -/
theorem c7_change_bank_corrected (st : EncState) (new_bank i : Nat) (hi : i < 16) :
    ((change_encoder_bank st new_bank).1.prevIndicator i = 255)
      ∧ ((change_encoder_bank st new_bank).1.prevSwitchColor i = 255)
      ∧ ((change_encoder_bank st new_bank).1.prevEncoderAnim i = st.prevEncoderAnim i)
      ∧ ((change_encoder_bank st new_bank).1.prevSwAnim i = st.prevSwAnim i)
      ∧ ((change_encoder_bank st new_bank).1.bank = new_bank) :=
  change_bank_prev_spec st new_bank i hi

/-- C7 (witness): instantiation of the amended bank-change behaviour. -/
theorem c7_change_bank_corrected_witness :
    ((change_encoder_bank c7State 1).1.prevIndicator 2 = 255)
      ∧ ((change_encoder_bank c7State 1).1.prevSwitchColor 2 = 255)
      ∧ ((change_encoder_bank c7State 1).1.prevEncoderAnim 2 = c7State.prevEncoderAnim 2)
      ∧ ((change_encoder_bank c7State 1).1.prevSwAnim 2 = c7State.prevSwAnim 2)
      ∧ ((change_encoder_bank c7State 1).1.bank = 1) :=
  c7_change_bank_corrected c7State 1 2 (by decide)

/-! ## Transfer-scan: raw-value and indicator tracking -/

theorem upd2_same (f : Nat → Nat → Nat) (b e v : Nat) : upd2 f b e v b e = v := by
  unfold upd2
  rw [if_pos rfl]
  exact Function.update_same _ _ _

theorem upd2_ne (f : Nat → Nat → Nat) (b e v b' e' : Nat) (h : ¬(b' = b ∧ e' = e)) :
    upd2 f b e v b' e' = f b' e' := by
  unfold upd2
  by_cases hb : b' = b
  · subst hb
    rw [if_pos rfl]
    exact Function.update_noteq (fun hc => h ⟨rfl, hc⟩) _ _
  · rw [if_neg hb]

theorem transfer_copy_raw_ne (cb ei tb te : Nat) (s : TransferSt) (x : Nat)
    (hx : x ≠ tb * PHYSICAL_ENCODERS + te) :
    (transfer_copy cb ei tb te s).1.raw x = s.1.raw x := by
  simp only [transfer_copy]
  split_ifs <;> first | rfl | exact Function.update_noteq hx _ _

theorem transfer_copy_ind_ne (cb ei tb te : Nat) (s : TransferSt) (b e : Nat)
    (h : ¬(b = tb ∧ e = te)) :
    (transfer_copy cb ei tb te s).1.indicator b e = s.1.indicator b e := by
  simp only [transfer_copy]
  split_ifs <;> first | rfl | exact upd2_ne _ _ _ _ _ _ h

theorem transfer_copy_nocopy (cb ei tb te : Nat) (s : TransferSt)
    (h : ¬CopyCond s.1.settings (cb * PHYSICAL_ENCODERS + ei) (tb * PHYSICAL_ENCODERS + te)) :
    transfer_copy cb ei tb te s = s := by
  simp only [transfer_copy]
  split_ifs with h1 h2
  · exact absurd ⟨h1, h2⟩ h
  · rfl
  · rfl

theorem transfer_copy_write (cb ei tb te : Nat) (s : TransferSt)
    (hc : CopyCond s.1.settings (cb * PHYSICAL_ENCODERS + ei) (tb * PHYSICAL_ENCODERS + te)) :
    transfer_copy cb ei tb te s
      = ({ s.1 with
            raw := (Function.update s.1.raw (tb * PHYSICAL_ENCODERS + te)
              (s.1.raw (cb * PHYSICAL_ENCODERS + ei))),
            indicator := (upd2 s.1.indicator tb te (s.1.indicator cb ei)) },
         s.2 ++ [(cb * PHYSICAL_ENCODERS + ei, tb * PHYSICAL_ENCODERS + te)]) := by
  simp only [transfer_copy]
  rw [if_pos hc.1, if_pos hc.2]

theorem transfer_inner_raw_skip (cb ei tb : Nat) (l : List Nat) (s : TransferSt) (x : Nat)
    (h : ∀ te ∈ l, x = tb * PHYSICAL_ENCODERS + te →
        ¬CopyCond s.1.settings (cb * PHYSICAL_ENCODERS + ei) x) :
    (transfer_inner cb ei tb l s).1.raw x = s.1.raw x := by
  induction l generalizing s with
  | nil => rfl
  | cons a t ih =>
    rw [transfer_inner_cons]
    have hset := (transfer_copy_fields cb ei tb a s).2.2.2.2.2.2
    refine (ih (transfer_copy cb ei tb a s) ?_).trans ?_
    · intro te hte hx
      rw [hset]
      exact h te (List.mem_cons_of_mem a hte) hx
    · by_cases hxa : x = tb * PHYSICAL_ENCODERS + a
      · subst hxa
        rw [transfer_copy_nocopy cb ei tb a s (h a (List.mem_cons_self a t) rfl)]
      · exact transfer_copy_raw_ne cb ei tb a s x hxa

theorem transfer_inner_ind_skip (cb ei tb : Nat) (l : List Nat) (s : TransferSt) (b e : Nat)
    (h : ∀ te ∈ l, b = tb ∧ e = te →
        ¬CopyCond s.1.settings (cb * PHYSICAL_ENCODERS + ei) (tb * PHYSICAL_ENCODERS + te)) :
    (transfer_inner cb ei tb l s).1.indicator b e = s.1.indicator b e := by
  induction l generalizing s with
  | nil => rfl
  | cons a t ih =>
    rw [transfer_inner_cons]
    have hset := (transfer_copy_fields cb ei tb a s).2.2.2.2.2.2
    refine (ih (transfer_copy cb ei tb a s) ?_).trans ?_
    · intro te hte hbe
      rw [hset]
      exact h te (List.mem_cons_of_mem a hte) hbe
    · by_cases hba : b = tb ∧ e = a
      · obtain ⟨hb, he⟩ := hba
        subst hb
        subst he
        rw [transfer_copy_nocopy cb ei b e s (h e (List.mem_cons_self e t) ⟨rfl, rfl⟩)]
      · exact transfer_copy_ind_ne cb ei tb a s b e hba

theorem transfer_inner_write (cb ei tb : Nat) (l : List Nat) (s : TransferSt) (te₀ : Nat)
    (hmem : te₀ ∈ l) (hnd : l.Nodup) (hl16 : ∀ te ∈ l, te < 16)
    (hne : tb ≠ cb) (hei : ei < 16)
    (hc : CopyCond s.1.settings (cb * PHYSICAL_ENCODERS + ei)
      (tb * PHYSICAL_ENCODERS + te₀)) :
    ((transfer_inner cb ei tb l s).1.raw (tb * PHYSICAL_ENCODERS + te₀)
        = s.1.raw (cb * PHYSICAL_ENCODERS + ei))
      ∧ ((transfer_inner cb ei tb l s).1.indicator tb te₀ = s.1.indicator cb ei) := by
  induction l generalizing s with
  | nil => exact absurd hmem (List.not_mem_nil te₀)
  | cons a t ih =>
    rw [transfer_inner_cons]
    rw [List.nodup_cons] at hnd
    by_cases ha : a = te₀
    · subst ha
      rw [transfer_copy_write cb ei tb a s hc]
      constructor
      · refine (transfer_inner_raw_skip cb ei tb t _ _ ?_).trans ?_
        · intro te hte hx
          exfalso
          have hta : a = te := Nat.add_left_cancel hx
          exact hnd.1 (hta ▸ hte)
        · exact Function.update_same _ _ _
      · refine (transfer_inner_ind_skip cb ei tb t _ tb a ?_).trans ?_
        · intro te hte hbe
          exfalso
          exact hnd.1 (hbe.2 ▸ hte)
        · exact upd2_same _ _ _ _
    · have hmem' : te₀ ∈ t := by
        rcases List.mem_cons.mp hmem with h | h
        · exact absurd h.symm ha
        · exact h
      have hset := (transfer_copy_fields cb ei tb a s).2.2.2.2.2.2
      have hsrc_ne : cb * PHYSICAL_ENCODERS + ei ≠ tb * PHYSICAL_ENCODERS + a := by
        have h16 : a < 16 := hl16 a (List.mem_cons_self a t)
        simp only [PHYSICAL_ENCODERS]
        intro hcon
        apply hne
        omega
      obtain ⟨r1, r2⟩ := ih (transfer_copy cb ei tb a s) hmem' hnd.2
        (fun te hte => hl16 te (List.mem_cons_of_mem a hte)) (by rw [hset]; exact hc)
      constructor
      · exact r1.trans (transfer_copy_raw_ne cb ei tb a s _
          (fun hcon => hsrc_ne hcon))
      · exact r2.trans (transfer_copy_ind_ne cb ei tb a s cb ei
          (fun hcon => hne hcon.1.symm))

theorem transfer_this_eq (cb ei : Nat) (s : TransferSt) :
    transfer_this_encoder_value_to_other_banks cb ei s
      = transfer_outer cb ei (List.range NUM_BANKS) s := rfl

theorem transfer_values_eq (cb : Nat) (s : TransferSt) :
    transfer_encoder_values_to_other_banks cb s
      = (List.range PHYSICAL_ENCODERS).foldl
          (fun s ei => transfer_this_encoder_value_to_other_banks cb ei s) s := rfl

theorem transfer_outer_raw_skip (cb ei : Nat) (l : List Nat) (s : TransferSt) (x : Nat)
    (h : ∀ tb ∈ l, tb ≠ cb → ∀ te, te < 16 → x = tb * PHYSICAL_ENCODERS + te →
        ¬CopyCond s.1.settings (cb * PHYSICAL_ENCODERS + ei) x) :
    (transfer_outer cb ei l s).1.raw x = s.1.raw x := by
  induction l generalizing s with
  | nil => rfl
  | cons a t ih =>
    rw [transfer_outer_cons]
    by_cases ha : a = cb
    · rw [if_pos ha]
      exact ih s (fun tb htb => h tb (List.mem_cons_of_mem a htb))
    · rw [if_neg ha]
      have hset := (transfer_inner_fields cb ei a (List.range PHYSICAL_ENCODERS) s).2.2.2.2.2.2
      refine (ih _ ?_).trans ?_
      · intro tb htb hne te hte hx
        rw [hset]
        exact h tb (List.mem_cons_of_mem a htb) hne te hte hx
      · refine transfer_inner_raw_skip cb ei a (List.range PHYSICAL_ENCODERS) s x ?_
        intro te hte hx
        exact h a (List.mem_cons_self a t) ha te (List.mem_range.mp hte) hx

theorem transfer_outer_ind_skip (cb ei : Nat) (l : List Nat) (s : TransferSt) (b e : Nat)
    (h : ∀ tb ∈ l, tb ≠ cb → ∀ te, te < 16 → (b = tb ∧ e = te) →
        ¬CopyCond s.1.settings (cb * PHYSICAL_ENCODERS + ei) (tb * PHYSICAL_ENCODERS + te)) :
    (transfer_outer cb ei l s).1.indicator b e = s.1.indicator b e := by
  induction l generalizing s with
  | nil => rfl
  | cons a t ih =>
    rw [transfer_outer_cons]
    by_cases ha : a = cb
    · rw [if_pos ha]
      exact ih s (fun tb htb => h tb (List.mem_cons_of_mem a htb))
    · rw [if_neg ha]
      have hset := (transfer_inner_fields cb ei a (List.range PHYSICAL_ENCODERS) s).2.2.2.2.2.2
      refine (ih _ ?_).trans ?_
      · intro tb htb hne te hte hbe
        rw [hset]
        exact h tb (List.mem_cons_of_mem a htb) hne te hte hbe
      · refine transfer_inner_ind_skip cb ei a (List.range PHYSICAL_ENCODERS) s b e ?_
        intro te hte hbe
        exact h a (List.mem_cons_self a t) ha te (List.mem_range.mp hte) hbe

theorem transfer_outer_write (cb ei : Nat) (l : List Nat) (s : TransferSt) (tb₀ te₀ : Nat)
    (hmem : tb₀ ∈ l) (hnd : l.Nodup) (hne : tb₀ ≠ cb) (hte0 : te₀ < 16) (hei : ei < 16)
    (hc : CopyCond s.1.settings (cb * PHYSICAL_ENCODERS + ei)
      (tb₀ * PHYSICAL_ENCODERS + te₀)) :
    ((transfer_outer cb ei l s).1.raw (tb₀ * PHYSICAL_ENCODERS + te₀)
        = s.1.raw (cb * PHYSICAL_ENCODERS + ei))
      ∧ ((transfer_outer cb ei l s).1.indicator tb₀ te₀ = s.1.indicator cb ei) := by
  induction l generalizing s with
  | nil => exact absurd hmem (List.not_mem_nil tb₀)
  | cons a t ih =>
    rw [transfer_outer_cons]
    rw [List.nodup_cons] at hnd
    by_cases ha : a = tb₀
    · subst ha
      rw [if_neg (fun hcon => hne hcon)]
      obtain ⟨w1, w2⟩ := transfer_inner_write cb ei a (List.range PHYSICAL_ENCODERS) s te₀
        (List.mem_range.mpr hte0) (List.nodup_range _)
        (fun te hte => List.mem_range.mp hte) hne hei hc
      constructor
      · refine (transfer_outer_raw_skip cb ei t _ _ ?_).trans w1
        intro tb htb hnecb te hte hx
        exfalso
        apply hnd.1
        have hta : tb = a := by
          simp only [PHYSICAL_ENCODERS] at hx
          omega
        exact hta ▸ htb
      · refine (transfer_outer_ind_skip cb ei t _ a te₀ ?_).trans w2
        intro tb htb hnecb te hte hbe
        exfalso
        exact hnd.1 (hbe.1 ▸ htb)
    · have hmem' : tb₀ ∈ t := by
        rcases List.mem_cons.mp hmem with h | h
        · exact absurd h.symm ha
        · exact h
      by_cases hacb : a = cb
      · rw [if_pos hacb]
        exact ih s hmem' hnd.2 hc
      · rw [if_neg hacb]
        have hset := (transfer_inner_fields cb ei a (List.range PHYSICAL_ENCODERS) s).2.2.2.2.2.2
        obtain ⟨r1, r2⟩ := ih (transfer_inner cb ei a (List.range PHYSICAL_ENCODERS) s)
          hmem' hnd.2 (by rw [hset]; exact hc)
        constructor
        · refine r1.trans ?_
          refine transfer_inner_raw_skip cb ei a (List.range PHYSICAL_ENCODERS) s _ ?_
          intro te hte hx
          exfalso
          apply hacb
          have hte16 : te < 16 := List.mem_range.mp hte
          simp only [PHYSICAL_ENCODERS] at hx
          omega
        · refine r2.trans ?_
          refine transfer_inner_ind_skip cb ei a (List.range PHYSICAL_ENCODERS) s cb ei ?_
          intro te hte hbe
          exact absurd hbe.1.symm hacb

theorem transfer_fold_src (cb : Nat) (l : List Nat) (s : TransferSt) (j : Nat) (hj : j < 16) :
    ((l.foldl (fun s ei => transfer_this_encoder_value_to_other_banks cb ei s) s).1.raw
        (cb * PHYSICAL_ENCODERS + j) = s.1.raw (cb * PHYSICAL_ENCODERS + j))
      ∧ ((l.foldl (fun s ei => transfer_this_encoder_value_to_other_banks cb ei s) s).1.indicator
          cb j = s.1.indicator cb j) := by
  induction l generalizing s with
  | nil => exact ⟨rfl, rfl⟩
  | cons a t ih =>
    rw [transfer_all_cons]
    obtain ⟨e1, e2⟩ := ih (transfer_this_encoder_value_to_other_banks cb a s)
    constructor
    · refine e1.trans ?_
      rw [transfer_this_eq]
      refine transfer_outer_raw_skip cb a (List.range NUM_BANKS) s _ ?_
      intro tb htb hnecb te hte hx
      exfalso
      apply hnecb
      simp only [PHYSICAL_ENCODERS] at hx
      omega
    · refine e2.trans ?_
      rw [transfer_this_eq]
      refine transfer_outer_ind_skip cb a (List.range NUM_BANKS) s cb j ?_
      intro tb htb hnecb te hte hbe
      exact absurd hbe.1.symm hnecb

theorem transfer_fold_tgt_skip (cb : Nat) (l : List Nat) (s : TransferSt) (tb₀ te₀ : Nat)
    (h : ∀ j ∈ l, ¬CopyCond s.1.settings (cb * PHYSICAL_ENCODERS + j)
        (tb₀ * PHYSICAL_ENCODERS + te₀)) :
    ((l.foldl (fun s ei => transfer_this_encoder_value_to_other_banks cb ei s) s).1.raw
        (tb₀ * PHYSICAL_ENCODERS + te₀) = s.1.raw (tb₀ * PHYSICAL_ENCODERS + te₀))
      ∧ ((l.foldl (fun s ei => transfer_this_encoder_value_to_other_banks cb ei s) s).1.indicator
          tb₀ te₀ = s.1.indicator tb₀ te₀) := by
  induction l generalizing s with
  | nil => exact ⟨rfl, rfl⟩
  | cons a t ih =>
    rw [transfer_all_cons]
    have hset :
        (transfer_this_encoder_value_to_other_banks cb a s).1.settings = s.1.settings :=
      (transfer_outer_fields cb a (List.range NUM_BANKS) s).2.2.2.2.2.2
    obtain ⟨e1, e2⟩ := ih (transfer_this_encoder_value_to_other_banks cb a s)
      (by intro j hj; rw [hset]; exact h j (List.mem_cons_of_mem a hj))
    constructor
    · refine e1.trans ?_
      rw [transfer_this_eq]
      refine transfer_outer_raw_skip cb a (List.range NUM_BANKS) s _ ?_
      intro tb htb hnecb te hte hx
      exact h a (List.mem_cons_self a t)
    · refine e2.trans ?_
      rw [transfer_this_eq]
      refine transfer_outer_ind_skip cb a (List.range NUM_BANKS) s tb₀ te₀ ?_
      intro tb htb hnecb te hte hbe
      obtain ⟨h1, h2⟩ := hbe
      subst h1
      subst h2
      exact h a (List.mem_cons_self a t)

theorem range_split (i k : Nat) :
    List.range (i + (k + 1))
      = List.range i ++ i :: ((List.range k).map (fun x => i + 1 + x)) := by
  rw [List.range_add, List.range_succ_eq_map, List.map_cons, List.map_map]
  have hf : ((fun x => i + x) ∘ Nat.succ) = (fun x => i + 1 + x) := by
    funext x
    simp only [Function.comp_apply, Nat.succ_eq_add_one]
    omega
  rw [hf]
  refine congrArg _ (congrArg₂ _ (by omega) rfl)

/-- Last-matching-source-wins: if source position `i` of the current bank
satisfies the copy condition towards target slot `(tb₀, te₀)` of another
bank and no later source position does, then the transfer scan leaves the
target slot holding the raw value and indicator of source `i`. -/
theorem transfer_values_write (cb : Nat) (s : TransferSt) (tb₀ te₀ i : Nat)
    (htb0 : tb₀ < NUM_BANKS) (hne : tb₀ ≠ cb) (hte0 : te₀ < 16) (hi : i < 16)
    (hc : CopyCond s.1.settings (cb * PHYSICAL_ENCODERS + i) (tb₀ * PHYSICAL_ENCODERS + te₀))
    (hafter : ∀ j, i < j → j < 16 →
      ¬CopyCond s.1.settings (cb * PHYSICAL_ENCODERS + j) (tb₀ * PHYSICAL_ENCODERS + te₀)) :
    ((transfer_encoder_values_to_other_banks cb s).1.raw (tb₀ * PHYSICAL_ENCODERS + te₀)
        = s.1.raw (cb * PHYSICAL_ENCODERS + i))
      ∧ ((transfer_encoder_values_to_other_banks cb s).1.indicator tb₀ te₀
          = s.1.indicator cb i) := by
  rw [transfer_values_eq]
  have hsplit : List.range PHYSICAL_ENCODERS
      = List.range i ++ i :: ((List.range (15 - i)).map (fun x => i + 1 + x)) := by
    have hn : PHYSICAL_ENCODERS = i + ((15 - i) + 1) := by
      simp only [PHYSICAL_ENCODERS]
      omega
    rw [hn]
    exact range_split i (15 - i)
  rw [hsplit]
  simp only [List.foldl_append, List.foldl_cons]
  obtain ⟨sr, si⟩ := transfer_fold_src cb (List.range i) s i hi
  have hsetpre :
      ((List.range i).foldl
        (fun s ei => transfer_this_encoder_value_to_other_banks cb ei s) s).1.settings
      = s.1.settings :=
    (transfer_all_fields cb (List.range i) s).2.2.2.2.2.2
  have hsetthis :
      (transfer_this_encoder_value_to_other_banks cb i
        ((List.range i).foldl
          (fun s ei => transfer_this_encoder_value_to_other_banks cb ei s) s)).1.settings
      = s.1.settings := by
    rw [transfer_this_eq]
    rw [(transfer_outer_fields cb i (List.range NUM_BANKS) _).2.2.2.2.2.2]
    exact hsetpre
  obtain ⟨w1, w2⟩ := transfer_outer_write cb i (List.range NUM_BANKS)
    ((List.range i).foldl (fun s ei => transfer_this_encoder_value_to_other_banks cb ei s) s)
    tb₀ te₀ (List.mem_range.mpr htb0) (List.nodup_range _) hne hte0 hi
    (by rw [hsetpre]; exact hc)
  obtain ⟨k1, k2⟩ := transfer_fold_tgt_skip cb
    ((List.range (15 - i)).map (fun x => i + 1 + x))
    (transfer_this_encoder_value_to_other_banks cb i
      ((List.range i).foldl (fun s ei => transfer_this_encoder_value_to_other_banks cb ei s) s))
    tb₀ te₀
    (by
      intro j hj
      rw [hsetthis]
      obtain ⟨x, hx, hxj⟩ := List.mem_map.mp hj
      have hx15 : x < 15 - i := List.mem_range.mp hx
      exact hafter j (by omega) (by omega))
  rw [← transfer_this_eq] at w1 w2
  exact ⟨(k1.trans w1).trans sr, (k2.trans w2).trans si⟩

/-! ## Transfer-scan: log soundness -/

theorem transfer_copy_log (cb ei tb te : Nat) (s : TransferSt) (p : Nat × Nat)
    (hp : p ∈ (transfer_copy cb ei tb te s).2) :
    p ∈ s.2 ∨ CopyCond s.1.settings p.1 p.2 := by
  simp only [transfer_copy] at hp
  split_ifs at hp with h1 h2
  · rcases List.mem_append.mp hp with h | h
    · exact Or.inl h
    · have he := List.mem_singleton.mp h
      subst he
      exact Or.inr ⟨h1, h2⟩
  · exact Or.inl hp
  · exact Or.inl hp

theorem transfer_inner_log (cb ei tb : Nat) (l : List Nat) (s : TransferSt) (p : Nat × Nat)
    (hp : p ∈ (transfer_inner cb ei tb l s).2) :
    p ∈ s.2 ∨ CopyCond s.1.settings p.1 p.2 := by
  induction l generalizing s with
  | nil => exact Or.inl hp
  | cons a t ih =>
    rw [transfer_inner_cons] at hp
    have hset := (transfer_copy_fields cb ei tb a s).2.2.2.2.2.2
    rcases ih (transfer_copy cb ei tb a s) hp with h | h
    · exact transfer_copy_log cb ei tb a s p h
    · rw [hset] at h
      exact Or.inr h

theorem transfer_outer_log (cb ei : Nat) (l : List Nat) (s : TransferSt) (p : Nat × Nat)
    (hp : p ∈ (transfer_outer cb ei l s).2) :
    p ∈ s.2 ∨ CopyCond s.1.settings p.1 p.2 := by
  induction l generalizing s with
  | nil => exact Or.inl hp
  | cons a t ih =>
    rw [transfer_outer_cons] at hp
    by_cases ha : a = cb
    · rw [if_pos ha] at hp
      exact ih s hp
    · rw [if_neg ha] at hp
      have hset := (transfer_inner_fields cb ei a (List.range PHYSICAL_ENCODERS) s).2.2.2.2.2.2
      rcases ih (transfer_inner cb ei a (List.range PHYSICAL_ENCODERS) s) hp with h | h
      · exact transfer_inner_log cb ei a (List.range PHYSICAL_ENCODERS) s p h
      · rw [hset] at h
        exact Or.inr h

theorem transfer_fold_log (cb : Nat) (l : List Nat) (s : TransferSt) (p : Nat × Nat)
    (hp : p ∈ ((l.foldl (fun s ei => transfer_this_encoder_value_to_other_banks cb ei s) s)).2) :
    p ∈ s.2 ∨ CopyCond s.1.settings p.1 p.2 := by
  induction l generalizing s with
  | nil => exact Or.inl hp
  | cons a t ih =>
    rw [transfer_all_cons] at hp
    have hset :
        (transfer_this_encoder_value_to_other_banks cb a s).1.settings = s.1.settings :=
      (transfer_outer_fields cb a (List.range NUM_BANKS) s).2.2.2.2.2.2
    rcases ih (transfer_this_encoder_value_to_other_banks cb a s) hp with h | h
    · rw [transfer_this_eq] at h
      exact transfer_outer_log cb a (List.range NUM_BANKS) s p h
    · rw [hset] at h
      exact Or.inr h

/-- Every copy recorded by the transfer scan satisfies the copy condition
(with respect to the pre-scan settings). -/
theorem transfer_values_log (cb : Nat) (s : TransferSt) (p : Nat × Nat)
    (hp : p ∈ (transfer_encoder_values_to_other_banks cb s).2) :
    p ∈ s.2 ∨ CopyCond s.1.settings p.1 p.2 := by
  rw [transfer_values_eq] at hp
  exact transfer_fold_log cb (List.range PHYSICAL_ENCODERS) s p hp

/-! ## Bank-change indicator snapshot lemmas -/

theorem change_bank_step_bank (nb : Nat) (s : EncState) (i : Nat) :
    (change_bank_step nb s i).bank = s.bank := rfl

theorem change_bank_step_raw (nb : Nat) (s : EncState) (i : Nat) :
    (change_bank_step nb s i).raw = s.raw := rfl

theorem change_bank_step_ind_ne (nb : Nat) (s : EncState) (i b e : Nat) (h : e ≠ i) :
    (change_bank_step nb s i).indicator b e = s.indicator b e := by
  show (upd2 (upd2 s.indicator s.bank i
      (scale_encoder_value (s.raw (get_virtual_encoder_id s.bank i)))) nb i
      (scale_encoder_value (s.raw (get_virtual_encoder_id nb i)))) b e = s.indicator b e
  rw [upd2_ne _ _ _ _ _ _ (fun hc => h hc.2), upd2_ne _ _ _ _ _ _ (fun hc => h hc.2)]

theorem change_bank_step_ind_new (nb : Nat) (s : EncState) (i : Nat) :
    (change_bank_step nb s i).indicator nb i
      = scale_encoder_value (s.raw (get_virtual_encoder_id nb i)) := by
  show (upd2 (upd2 s.indicator s.bank i
      (scale_encoder_value (s.raw (get_virtual_encoder_id s.bank i)))) nb i
      (scale_encoder_value (s.raw (get_virtual_encoder_id nb i)))) nb i = _
  exact upd2_same _ _ _ _

theorem change_bank_step_ind_old (nb : Nat) (s : EncState) (i : Nat) (h : s.bank ≠ nb) :
    (change_bank_step nb s i).indicator s.bank i
      = scale_encoder_value (s.raw (get_virtual_encoder_id s.bank i)) := by
  show (upd2 (upd2 s.indicator s.bank i
      (scale_encoder_value (s.raw (get_virtual_encoder_id s.bank i)))) nb i
      (scale_encoder_value (s.raw (get_virtual_encoder_id nb i)))) s.bank i = _
  rw [upd2_ne _ _ _ _ _ _ (fun hc => h hc.1)]
  exact upd2_same _ _ _ _

theorem change_bank_step_ind_other (nb : Nat) (s : EncState) (i b e : Nat)
    (hb1 : b ≠ nb) (hb2 : b ≠ s.bank) :
    (change_bank_step nb s i).indicator b e = s.indicator b e := by
  show (upd2 (upd2 s.indicator s.bank i
      (scale_encoder_value (s.raw (get_virtual_encoder_id s.bank i)))) nb i
      (scale_encoder_value (s.raw (get_virtual_encoder_id nb i)))) b e = s.indicator b e
  rw [upd2_ne _ _ _ _ _ _ (fun hc => hb1 hc.1), upd2_ne _ _ _ _ _ _ (fun hc => hb2 hc.1)]

theorem change_loop_ind_untouched (nb : Nat) (l : List Nat) (s : EncState) (b e : Nat)
    (he : e ∉ l) :
    (l.foldl (change_bank_step nb) s).indicator b e = s.indicator b e := by
  induction l generalizing s with
  | nil => rfl
  | cons a t ih =>
    rw [List.foldl_cons]
    have hea : e ≠ a := fun h => he (h ▸ List.mem_cons_self a t)
    exact (ih (change_bank_step nb s a) (fun h => he (List.mem_cons_of_mem a h))).trans
      (change_bank_step_ind_ne nb s a b e hea)

theorem change_loop_ind_other (nb : Nat) (l : List Nat) (s : EncState) (b e : Nat)
    (hb1 : b ≠ nb) (hb2 : b ≠ s.bank) :
    (l.foldl (change_bank_step nb) s).indicator b e = s.indicator b e := by
  induction l generalizing s with
  | nil => rfl
  | cons a t ih =>
    rw [List.foldl_cons]
    refine (ih (change_bank_step nb s a) ?_).trans
      (change_bank_step_ind_other nb s a b e hb1 hb2)
    rw [change_bank_step_bank]
    exact hb2

theorem change_loop_ind_mem (nb : Nat) (l : List Nat) (s : EncState) (e : Nat)
    (he : e ∈ l) (hnd : l.Nodup) :
    ((l.foldl (change_bank_step nb) s).indicator nb e
        = scale_encoder_value (s.raw (get_virtual_encoder_id nb e)))
      ∧ (s.bank ≠ nb →
          (l.foldl (change_bank_step nb) s).indicator s.bank e
            = scale_encoder_value (s.raw (get_virtual_encoder_id s.bank e))) := by
  induction l generalizing s with
  | nil => exact absurd he (List.not_mem_nil e)
  | cons a t ih =>
    rw [List.foldl_cons]
    rw [List.nodup_cons] at hnd
    by_cases hea : e = a
    · subst hea
      constructor
      · exact (change_loop_ind_untouched nb t (change_bank_step nb s e) nb e hnd.1).trans
          (change_bank_step_ind_new nb s e)
      · intro hb
        exact (change_loop_ind_untouched nb t (change_bank_step nb s e) s.bank e hnd.1).trans
          (change_bank_step_ind_old nb s e hb)
    · have het : e ∈ t := by
        rcases List.mem_cons.mp he with h | h
        · exact absurd h hea
        · exact h
      obtain ⟨ih1, ih2⟩ := ih (change_bank_step nb s a) het hnd.2
      constructor
      · rw [change_bank_step_raw] at ih1
        exact ih1
      · intro hb
        rw [change_bank_step_bank, change_bank_step_raw] at ih2
        exact ih2 hb

theorem change_bank_raw (st : EncState) (nb x : Nat) :
    (change_encoder_bank st nb).1.raw x
      = (transfer_encoder_values_to_other_banks st.bank (st, [])).1.raw x := by
  rw [change_encoder_bank_eq]
  exact congrFun (change_loop_fields nb (List.range 16)
    (transfer_encoder_values_to_other_banks st.bank (st, [])).1).1 x

theorem change_bank_log (st : EncState) (nb : Nat) :
    (change_encoder_bank st nb).2
      = (transfer_encoder_values_to_other_banks st.bank (st, [])).2 := by
  rw [change_encoder_bank_eq]

theorem change_bank_ind_other (st : EncState) (nb b e : Nat)
    (hb1 : b ≠ nb) (hb2 : b ≠ st.bank) :
    (change_encoder_bank st nb).1.indicator b e
      = (transfer_encoder_values_to_other_banks st.bank (st, [])).1.indicator b e := by
  rw [change_encoder_bank_eq]
  have hTbank : (transfer_encoder_values_to_other_banks st.bank (st, [])).1.bank = st.bank :=
    (transfer_fields st.bank (st, [])).2.2.2.2.1
  refine change_loop_ind_other nb (List.range 16)
    (transfer_encoder_values_to_other_banks st.bank (st, [])).1 b e hb1 ?_
  rw [hTbank]
  exact hb2

/-- **C6** (counterexample). The universal convergence claim fails when two
distinct sources in the current bank match the same target slot: slots 0
and 1 of bank 0 and slot 16 of bank 1 share a matching absolute CC mapping,
yet after `change_encoder_bank` the target slot 16 does not hold source
slot 0's raw value (the later source, slot 1, overwrote it). -/
theorem c6_bank_transfer_claim_false :
    CopyCond c6State.settings (0 * PHYSICAL_ENCODERS + 0) (1 * PHYSICAL_ENCODERS + 0)
      ∧ (change_encoder_bank c6State 1).1.raw (1 * PHYSICAL_ENCODERS + 0)
          ≠ c6State.raw (0 * PHYSICAL_ENCODERS + 0) := by
  have hA : ∀ j < 16, 1 < j →
      ¬CopyCond (c6State, ([] : List (Nat × Nat))).1.settings
        (0 * PHYSICAL_ENCODERS + j) (1 * PHYSICAL_ENCODERS + 0) := by decide
  obtain ⟨w1, w2⟩ := transfer_values_write 0 (c6State, []) 1 0 1
    (by decide) (by decide) (by decide) (by decide) (by decide)
    (fun j h1 h2 => hA j h2 h1)
  have hr := change_bank_raw c6State 1 (1 * PHYSICAL_ENCODERS + 0)
  have hb : c6State.bank = 0 := rfl
  rw [hb] at hr
  refine ⟨by decide, ?_⟩
  intro hcon
  rw [hr, w1] at hcon
  have h1 : (c6State, ([] : List (Nat × Nat))).1.raw (0 * PHYSICAL_ENCODERS + 1) = 200 := rfl
  have h2 : c6State.raw (0 * PHYSICAL_ENCODERS + 0) = 100 := rfl
  rw [h1, h2] at hcon
  exact absurd hcon (by decide)

/-- **C6** (corrected): after `change_encoder_bank`, a target slot of
another bank holds the raw value of the LAST source position of the old
bank that satisfies the copy condition towards it; that source slot itself
is unchanged, so when the matching source is unique the two slots converge;
if additionally the target bank is not the destination bank, the target's
indicator entry equals the source's pre-change indicator entry; and every
copy performed is between two slots satisfying the copy condition (matching
number and non-relative kind AND equal channel), so two slots differing in
encoder MIDI channel never have a value copied between them. -/
theorem c6_bank_transfer_corrected (st : EncState) (nb tb te i : Nat)
    (htb : tb < NUM_BANKS) (hne : tb ≠ st.bank) (hte : te < 16) (hi : i < 16)
    (hc : CopyCond st.settings (st.bank * PHYSICAL_ENCODERS + i) (tb * PHYSICAL_ENCODERS + te))
    (hlast : ∀ j, i < j → j < 16 →
      ¬CopyCond st.settings (st.bank * PHYSICAL_ENCODERS + j) (tb * PHYSICAL_ENCODERS + te)) :
    ((change_encoder_bank st nb).1.raw (tb * PHYSICAL_ENCODERS + te)
        = st.raw (st.bank * PHYSICAL_ENCODERS + i))
      ∧ ((change_encoder_bank st nb).1.raw (st.bank * PHYSICAL_ENCODERS + i)
          = st.raw (st.bank * PHYSICAL_ENCODERS + i))
      ∧ (tb ≠ nb →
          (change_encoder_bank st nb).1.indicator tb te = st.indicator st.bank i)
      ∧ (∀ p ∈ (change_encoder_bank st nb).2, CopyCond st.settings p.1 p.2) := by
  obtain ⟨w1, w2⟩ := transfer_values_write st.bank (st, []) tb te i htb hne hte hi hc hlast
  refine ⟨?_, ?_, ?_, ?_⟩
  · rw [change_bank_raw]
    exact w1
  · rw [change_bank_raw, transfer_values_eq]
    exact (transfer_fold_src st.bank (List.range PHYSICAL_ENCODERS) (st, []) i hi).1
  · intro htbnb
    rw [change_bank_ind_other st nb tb te htbnb hne]
    exact w2
  · intro p hp
    rw [change_bank_log] at hp
    rcases transfer_values_log st.bank (st, []) p hp with h | h
    · exact absurd h (List.not_mem_nil p)
    · exact h

/-- Closed instantiation of the corrected C6 theorem: in the concrete
scenario the last matching source is slot 1, and after a bank change to
bank 2 the target slot 16 indeed holds slot 1's raw value. -/
theorem c6_bank_transfer_corrected_witness :
    (1 < NUM_BANKS ∧ (1 : Nat) ≠ c6State.bank
        ∧ CopyCond c6State.settings (c6State.bank * PHYSICAL_ENCODERS + 1)
            (1 * PHYSICAL_ENCODERS + 0))
      ∧ ((change_encoder_bank c6State 2).1.raw (1 * PHYSICAL_ENCODERS + 0)
          = c6State.raw (c6State.bank * PHYSICAL_ENCODERS + 1)) := by
  have hA : ∀ j < 16, 1 < j →
      ¬CopyCond c6State.settings (c6State.bank * PHYSICAL_ENCODERS + j)
        (1 * PHYSICAL_ENCODERS + 0) := by decide
  exact ⟨⟨by decide, by decide, by decide⟩,
    (c6_bank_transfer_corrected c6State 2 1 0 1 (by decide) (by decide) (by decide)
      (by decide) (by decide) (fun j h1 h2 => hA j h2 h1)).1⟩

/-! ## Raw-range invariant machinery (C8) -/

theorem encoders_init_raw_eq (settings : Nat → EncoderConfig) (raw : Nat → Int) :
    encoders_init_raw settings raw
      = (List.range BANKED_ENCODERS).foldl
          (fun r i =>
            if (settings i).has_detent ≠ 0 then
              Function.update (Function.update r i 6300) (i + BANKED_ENCODERS) 6300
            else
              Function.update (Function.update r i 0) (i + BANKED_ENCODERS) 0)
          raw := rfl

theorem init_loop_pres (settings : Nat → EncoderConfig) (l : List Nat) (r : Nat → Int)
    (x : Nat) (h : r x = 0 ∨ r x = 6300) :
    (l.foldl
        (fun r i =>
          if (settings i).has_detent ≠ 0 then
            Function.update (Function.update r i 6300) (i + BANKED_ENCODERS) 6300
          else
            Function.update (Function.update r i 0) (i + BANKED_ENCODERS) 0)
        r) x = 0
      ∨ (l.foldl
        (fun r i =>
          if (settings i).has_detent ≠ 0 then
            Function.update (Function.update r i 6300) (i + BANKED_ENCODERS) 6300
          else
            Function.update (Function.update r i 0) (i + BANKED_ENCODERS) 0)
        r) x = 6300 := by
  induction l generalizing r with
  | nil => exact h
  | cons a t ih =>
    simp only [List.foldl_cons]
    refine ih _ ?_
    split_ifs with hd
    · by_cases h1 : x = a + BANKED_ENCODERS
      · subst h1
        rw [Function.update_same]
        exact Or.inr rfl
      · rw [Function.update_noteq h1]
        by_cases h2 : x = a
        · subst h2
          rw [Function.update_same]
          exact Or.inr rfl
        · rw [Function.update_noteq h2]
          exact h
    · by_cases h1 : x = a + BANKED_ENCODERS
      · subst h1
        rw [Function.update_same]
        exact Or.inl rfl
      · rw [Function.update_noteq h1]
        by_cases h2 : x = a
        · subst h2
          rw [Function.update_same]
          exact Or.inl rfl
        · rw [Function.update_noteq h2]
          exact h

theorem init_loop_mem (settings : Nat → EncoderConfig) (l : List Nat) (r : Nat → Int)
    (i : Nat) (hi : i ∈ l) :
    ((l.foldl
        (fun r i =>
          if (settings i).has_detent ≠ 0 then
            Function.update (Function.update r i 6300) (i + BANKED_ENCODERS) 6300
          else
            Function.update (Function.update r i 0) (i + BANKED_ENCODERS) 0)
        r) i = 0
      ∨ (l.foldl
        (fun r i =>
          if (settings i).has_detent ≠ 0 then
            Function.update (Function.update r i 6300) (i + BANKED_ENCODERS) 6300
          else
            Function.update (Function.update r i 0) (i + BANKED_ENCODERS) 0)
        r) i = 6300)
      ∧ ((l.foldl
        (fun r i =>
          if (settings i).has_detent ≠ 0 then
            Function.update (Function.update r i 6300) (i + BANKED_ENCODERS) 6300
          else
            Function.update (Function.update r i 0) (i + BANKED_ENCODERS) 0)
        r) (i + BANKED_ENCODERS) = 0
      ∨ (l.foldl
        (fun r i =>
          if (settings i).has_detent ≠ 0 then
            Function.update (Function.update r i 6300) (i + BANKED_ENCODERS) 6300
          else
            Function.update (Function.update r i 0) (i + BANKED_ENCODERS) 0)
        r) (i + BANKED_ENCODERS) = 6300) := by
  induction l generalizing r with
  | nil => exact absurd hi (List.not_mem_nil i)
  | cons a t ih =>
    simp only [List.foldl_cons]
    by_cases hia : i = a
    · subst hia
      have hne : i ≠ i + BANKED_ENCODERS := by
        simp only [BANKED_ENCODERS]
        omega
      constructor
      · refine init_loop_pres settings t _ i ?_
        split_ifs with hd
        · rw [Function.update_noteq hne, Function.update_same]
          exact Or.inr rfl
        · rw [Function.update_noteq hne, Function.update_same]
          exact Or.inl rfl
      · refine init_loop_pres settings t _ (i + BANKED_ENCODERS) ?_
        split_ifs with hd
        · rw [Function.update_same]
          exact Or.inr rfl
        · rw [Function.update_same]
          exact Or.inl rfl
    · have hit : i ∈ t := by
        rcases List.mem_cons.mp hi with h | h
        · exact absurd h hia
        · exact h
      exact ih _ hit

theorem transfer_copy_rawinv (cb ei tb te : Nat) (s : TransferSt)
    (hsrc : cb * PHYSICAL_ENCODERS + ei < VIRTUAL_ENCODERS)
    (h : ∀ x, x < VIRTUAL_ENCODERS → 0 ≤ s.1.raw x ∧ s.1.raw x ≤ 16383)
    (x : Nat) (hx : x < VIRTUAL_ENCODERS) :
    0 ≤ (transfer_copy cb ei tb te s).1.raw x
      ∧ (transfer_copy cb ei tb te s).1.raw x ≤ 16383 := by
  simp only [transfer_copy]
  split_ifs with h1 h2
  · by_cases hxt : x = tb * PHYSICAL_ENCODERS + te
    · show (0 ≤ Function.update s.1.raw (tb * PHYSICAL_ENCODERS + te)
          (s.1.raw (cb * PHYSICAL_ENCODERS + ei)) x)
        ∧ (Function.update s.1.raw (tb * PHYSICAL_ENCODERS + te)
          (s.1.raw (cb * PHYSICAL_ENCODERS + ei)) x ≤ 16383)
      subst hxt
      rw [Function.update_same]
      exact h _ hsrc
    · show (0 ≤ Function.update s.1.raw (tb * PHYSICAL_ENCODERS + te)
          (s.1.raw (cb * PHYSICAL_ENCODERS + ei)) x)
        ∧ (Function.update s.1.raw (tb * PHYSICAL_ENCODERS + te)
          (s.1.raw (cb * PHYSICAL_ENCODERS + ei)) x ≤ 16383)
      rw [Function.update_noteq hxt]
      exact h x hx
  · exact h x hx
  · exact h x hx

theorem transfer_inner_rawinv (cb ei tb : Nat) (l : List Nat) (s : TransferSt)
    (hsrc : cb * PHYSICAL_ENCODERS + ei < VIRTUAL_ENCODERS)
    (h : ∀ x, x < VIRTUAL_ENCODERS → 0 ≤ s.1.raw x ∧ s.1.raw x ≤ 16383)
    (x : Nat) (hx : x < VIRTUAL_ENCODERS) :
    0 ≤ (transfer_inner cb ei tb l s).1.raw x
      ∧ (transfer_inner cb ei tb l s).1.raw x ≤ 16383 := by
  induction l generalizing s with
  | nil => exact h x hx
  | cons a t ih =>
    rw [transfer_inner_cons]
    exact ih (transfer_copy cb ei tb a s)
      (fun y hy => transfer_copy_rawinv cb ei tb a s hsrc h y hy)

theorem transfer_outer_rawinv (cb ei : Nat) (l : List Nat) (s : TransferSt)
    (hsrc : cb * PHYSICAL_ENCODERS + ei < VIRTUAL_ENCODERS)
    (h : ∀ x, x < VIRTUAL_ENCODERS → 0 ≤ s.1.raw x ∧ s.1.raw x ≤ 16383)
    (x : Nat) (hx : x < VIRTUAL_ENCODERS) :
    0 ≤ (transfer_outer cb ei l s).1.raw x
      ∧ (transfer_outer cb ei l s).1.raw x ≤ 16383 := by
  induction l generalizing s with
  | nil => exact h x hx
  | cons a t ih =>
    rw [transfer_outer_cons]
    by_cases ha : a = cb
    · rw [if_pos ha]
      exact ih s h
    · rw [if_neg ha]
      exact ih (transfer_inner cb ei a (List.range PHYSICAL_ENCODERS) s)
        (fun y hy =>
          transfer_inner_rawinv cb ei a (List.range PHYSICAL_ENCODERS) s hsrc h y hy)

theorem transfer_fold_rawinv (cb : Nat) (l : List Nat) (s : TransferSt)
    (hsrcs : ∀ ei ∈ l, cb * PHYSICAL_ENCODERS + ei < VIRTUAL_ENCODERS)
    (h : ∀ x, x < VIRTUAL_ENCODERS → 0 ≤ s.1.raw x ∧ s.1.raw x ≤ 16383)
    (x : Nat) (hx : x < VIRTUAL_ENCODERS) :
    0 ≤ ((l.foldl (fun s ei => transfer_this_encoder_value_to_other_banks cb ei s) s)).1.raw x
      ∧ ((l.foldl (fun s ei => transfer_this_encoder_value_to_other_banks cb ei s) s)).1.raw x
          ≤ 16383 := by
  induction l generalizing s with
  | nil => exact h x hx
  | cons a t ih =>
    rw [transfer_all_cons]
    have hstep : ∀ y, y < VIRTUAL_ENCODERS →
        0 ≤ (transfer_this_encoder_value_to_other_banks cb a s).1.raw y
          ∧ (transfer_this_encoder_value_to_other_banks cb a s).1.raw y ≤ 16383 := by
      intro y hy
      rw [transfer_this_eq]
      exact transfer_outer_rawinv cb a (List.range NUM_BANKS) s
        (hsrcs a (List.mem_cons_self a t)) h y hy
    exact ih (transfer_this_encoder_value_to_other_banks cb a s)
      (fun ei hei => hsrcs ei (List.mem_cons_of_mem a hei)) hstep

theorem transfer_values_rawinv (cb : Nat) (s : TransferSt) (hcb : cb < NUM_BANKS)
    (h : ∀ x, x < VIRTUAL_ENCODERS → 0 ≤ s.1.raw x ∧ s.1.raw x ≤ 16383)
    (x : Nat) (hx : x < VIRTUAL_ENCODERS) :
    0 ≤ (transfer_encoder_values_to_other_banks cb s).1.raw x
      ∧ (transfer_encoder_values_to_other_banks cb s).1.raw x ≤ 16383 := by
  rw [transfer_values_eq]
  refine transfer_fold_rawinv cb (List.range PHYSICAL_ENCODERS) s ?_ h x hx
  intro ei hei
  have h1 : ei < 16 := List.mem_range.mp hei
  simp only [NUM_BANKS] at hcb
  simp only [PHYSICAL_ENCODERS, VIRTUAL_ENCODERS]
  omega

/-- **C8**: every virtual-slot raw value lies in `[0, 16383]`: the
initialization loop establishes the invariant for all 128 virtual slots,
the motion clamp always lands in the range, an inbound indicator update
(7-bit data byte) preserves it, and a bank change (including its cross-bank
transfer scan) preserves it. -/
theorem c8_raw_range_invariant :
    (∀ (settings : Nat → EncoderConfig) (r : Nat → Int),
        RawBounded (encoders_init_raw settings r))
      ∧ (∀ v : Int, 0 ≤ clamp_encoder_raw_value v ∧ clamp_encoder_raw_value v ≤ 16383)
      ∧ (∀ (st : EncState) (idx value : Nat), RawInv st → value < 128 →
          RawInv (process_indicator_update st idx value))
      ∧ (∀ (st : EncState) (nb : Nat), st.bank < NUM_BANKS → RawInv st →
          RawInv (change_encoder_bank st nb).1) := by
  refine ⟨?_, ?_, ?_, ?_⟩
  · intro settings r
    unfold RawBounded
    intro x hx
    rw [encoders_init_raw_eq]
    by_cases hlow : x < BANKED_ENCODERS
    · have hm := (init_loop_mem settings (List.range BANKED_ENCODERS) r x
        (List.mem_range.mpr hlow)).1
      rcases hm with h6 | h6 <;> rw [h6] <;> exact ⟨by decide, by decide⟩
    · have hxe : x = (x - BANKED_ENCODERS) + BANKED_ENCODERS := by
        simp only [BANKED_ENCODERS] at hlow ⊢
        omega
      have hm := (init_loop_mem settings (List.range BANKED_ENCODERS) r (x - BANKED_ENCODERS)
        (List.mem_range.mpr (by
          simp only [BANKED_ENCODERS, VIRTUAL_ENCODERS] at hlow hx ⊢
          omega))).2
      rw [hxe]
      rcases hm with h6 | h6 <;> rw [h6] <;> exact ⟨by decide, by decide⟩
  · intro v
    simp only [clamp_encoder_raw_value, HIGH_RES_MAX_ENCODER_VALUE]
    split_ifs <;> constructor <;> omega
  · intro st idx value h hv
    unfold RawInv RawBounded at h ⊢
    intro x hx
    have h7 : (value <<< 7 : Nat) = value * 128 := by
      rw [Nat.shiftLeft_eq]
    have hval : (0 : Int) ≤ ((value <<< 7 : Nat) : Int)
        ∧ ((value <<< 7 : Nat) : Int) ≤ 16383 := by
      rw [h7]
      constructor
      · omega
      · have : value * 128 ≤ 16256 := by omega
        omega
    simp only [process_indicator_update]
    split_ifs with h1 h2
    · by_cases hxi : x = idx
      · show (0 ≤ Function.update st.raw idx ((value <<< 7 : Nat) : Int) x)
          ∧ (Function.update st.raw idx ((value <<< 7 : Nat) : Int) x ≤ 16383)
        subst hxi
        rw [Function.update_same]
        exact hval
      · show (0 ≤ Function.update st.raw idx ((value <<< 7 : Nat) : Int) x)
          ∧ (Function.update st.raw idx ((value <<< 7 : Nat) : Int) x ≤ 16383)
        rw [Function.update_noteq hxi]
        exact h x hx
    · exact h x hx
    · by_cases hxi : x = idx
      · show (0 ≤ Function.update st.raw idx ((value <<< 7 : Nat) : Int) x)
          ∧ (Function.update st.raw idx ((value <<< 7 : Nat) : Int) x ≤ 16383)
        subst hxi
        rw [Function.update_same]
        exact hval
      · show (0 ≤ Function.update st.raw idx ((value <<< 7 : Nat) : Int) x)
          ∧ (Function.update st.raw idx ((value <<< 7 : Nat) : Int) x ≤ 16383)
        rw [Function.update_noteq hxi]
        exact h x hx
  · intro st nb hbank h
    unfold RawInv RawBounded at h ⊢
    intro x hx
    rw [change_bank_raw]
    exact transfer_values_rawinv st.bank (st, []) hbank h x hx

/-- Closed instantiation of C8: the all-zero state satisfies the raw-range
invariant, 50 is a valid data byte, and the invariant still holds after the
inbound indicator update writing `50 << 7` into slot 3. -/
theorem c8_raw_range_invariant_witness :
    RawInv zeroState ∧ (50 : Nat) < 128
      ∧ RawInv (process_indicator_update zeroState 3 50) := by
  have h := c8_raw_range_invariant.2.2.1 zeroState 3 50 (by decide) (by decide)
  exact ⟨by decide, by decide, h⟩

end Twister
